import Mathlib

/-!
Shallow embedding of the osm-urban-growth-analyzer core (growth-metrics
engine, spatial analyzer, query planner helpers, cache store) and proofs of
the specification claims against it.

Numbers: Python floats are modelled by exact rationals (ℚ); years by ℤ.
Python dicts keyed by year are modelled by association lists with unique
keys (`ByYear`); a dict returned by a routine is modelled by a structure, an
empty-dict result by `none`.

External library calls whose values are irrational in general (shapely
Euclidean distances, pyproj UTM-projected areas, convex hulls, numpy
standard deviations, sklearn DBSCAN labels, math.atan2) are modelled as
explicit function parameters collected in `GeoOps`: every theorem below
holds for every choice of these functions, and no claim settled here
depends on their values.
-/

namespace OSMD

/-- A per-year input mapping (Python `Dict[int, GeoDataFrame]`); keys are
unique in a dict. -/
abbrev ByYear (α : Type) := List (ℤ × α)

/-- Association-list lookup (Python `d[k]` / `d.get(k)`). -/
def alistGet {κ α : Type} [DecidableEq κ] : List (κ × α) → κ → Option α
  | [], _ => none
  | (k, v) :: rest, key => if k = key then some v else alistGet rest key

/-- The collection stored for year `y` (the dict always has the key when we
read it; absent keys give the empty collection). -/
def getYear {α : Type} (m : ByYear (List α)) (y : ℤ) : List α :=
  (alistGet m y).getD []

/-- `sorted(d.keys())`: Python dict keys are unique, so `dedup` is the
identity on well-formed inputs; sorting is by the usual integer order. -/
def sortedYears {α : Type} (m : ByYear α) : List ℤ :=
  List.insertionSort (· ≤ ·) (m.map Prod.fst).dedup

/-- The pairs `(years[i-1], years[i])` visited by `for i in
range(1, len(years))`. -/
def consecutivePairs (years : List ℤ) : List (ℤ × ℤ) :=
  years.zip years.tail

/-- `pandas.Series.value_counts().to_dict()`: a map from each occurring
value to its multiplicity (dict ordering is irrelevant to the claims). -/
def valueCounts (l : List String) : List (String × ℕ) :=
  l.dedup.map fun s => (s, l.count s)

/-- `numpy.mean` of a list (only applied to non-empty lists by the code;
`[]` gives `0/0 = 0` in ℚ). -/
def meanQ (l : List ℚ) : ℚ := l.sum / l.length

/-- `min(list)` for a non-empty list (0 on `[]`, never reached). -/
def minQ : List ℚ → ℚ
  | [] => 0
  | x :: xs => xs.foldl min x

/-- `max(list)` for a non-empty list (0 on `[]`, never reached). -/
def maxQ : List ℚ → ℚ
  | [] => 0
  | x :: xs => xs.foldl max x

/-- Abstraction of a shapely geometry: the planar measurements the analysis
routines read.  `area` and `length` are shapely's raw degree-based
`.area` / `.length` (for a polygon `.length` is the perimeter), `centroid`
is the centroid's coordinates `(x, y)`. -/
structure Geometry where
  area : ℚ
  length : ℚ
  centroid : ℚ × ℚ
deriving DecidableEq

/-- A processed building row: geometry plus the `area_m2` and
`building_type` columns produced by the processing pipeline. -/
structure Building where
  geometry : Geometry
  area_m2 : ℚ
  building_type : String
deriving DecidableEq

/-- A processed road row: geometry plus the `length_m` and `highway`
columns. -/
structure Road where
  geometry : Geometry
  length_m : ℚ
  highway : String
deriving DecidableEq

/-- A processed land-use row: geometry plus the `area_m2` and
`landuse_category` columns. -/
structure LandusePatch where
  geometry : Geometry
  area_m2 : ℚ
  landuse_category : String
deriving DecidableEq

/-- The external geometric/numeric subroutines (shapely, pyproj, numpy,
sklearn, math.atan2) the analysis code calls.  Their exact values are
irrational in general; the theorems hold for every choice. -/
structure GeoOps where
  /-- shapely planar distance between two points, in degrees. -/
  dist : (ℚ × ℚ) → (ℚ × ℚ) → ℚ
  /-- `calculate_area`: UTM-projected area of a geometry in m². -/
  calcArea : Geometry → ℚ
  /-- area in m² of the convex hull of the union of the geometries. -/
  convexHullArea : List Geometry → ℚ
  /-- number of connected components of the union of the geometries each
  buffered by the given radius (`len(unary_union(buffered).geoms)`). -/
  unionComponentCount : List Geometry → ℚ → ℕ
  /-- `numpy.std` of a list of distances. -/
  stdDev : List ℚ → ℚ
  /-- `math.degrees(math.atan2(dy, dx))`. -/
  atan2deg : ℚ → ℚ → ℚ
  /-- `math.sqrt(dx**2 + dy**2)`. -/
  hypot : ℚ → ℚ → ℚ
  /-- sklearn DBSCAN labels for points, eps (degrees), min_samples. -/
  dbscanLabels : List (ℚ × ℚ) → ℚ → ℕ → List ℤ
  /-- shapely distance (degrees) from a point to the union of geometries. -/
  distToUnion : (ℚ × ℚ) → List Geometry → ℚ

/-- Degrees→meters constant `111319.9` used throughout the source. -/
def M_PER_DEG : ℚ := 1113199 / 10

/-- Km→degrees constant `111.32` used by `create_analysis_grid`. -/
def KM_PER_DEG : ℚ := 11132 / 100

/-! ## metrics.py — GrowthMetrics -/

/-- `((curr - prev) / prev * 100) if prev > 0 else 0` — the growth-percent
pattern shared by building, road and land-use growth. -/
def growthPercent (prev curr : ℚ) : ℚ :=
  if prev > 0 then (curr - prev) / prev * 100 else 0

/-- `metrics['building_counts'][year]` (0 for an empty collection). -/
def buildingCount (m : ByYear (List Building)) (y : ℤ) : ℕ :=
  (getYear m y).length

/-- `metrics['total_area_m2'][year]`: sum of the `area_m2` column. -/
def buildingTotalArea (m : ByYear (List Building)) (y : ℤ) : ℚ :=
  ((getYear m y).map Building.area_m2).sum

/-- `metrics['average_building_size_m2'][year]`: mean of `area_m2`
(0.0 for an empty collection). -/
def buildingAvgArea (m : ByYear (List Building)) (y : ℤ) : ℚ :=
  if (getYear m y).length = 0 then 0
  else meanQ ((getYear m y).map Building.area_m2)

/-- `metrics['building_types'][year]` ({} for an empty collection). -/
def buildingTypes (m : ByYear (List Building)) (y : ℤ) : List (String × ℕ) :=
  valueCounts ((getYear m y).map Building.building_type)

/-- One entry of `metrics['growth_rates']` for buildings. -/
structure BuildingGrowthRecord where
  count_growth_percent : ℚ
  area_growth_percent : ℚ
  new_buildings : ℤ
  new_area_m2 : ℚ
  years_elapsed : ℤ
  annual_count_growth_percent : ℚ
  annual_area_growth_percent : ℚ
deriving DecidableEq

/-- The record computed for the consecutive pair `(p, c)` in
`calculate_building_growth`. -/
def buildingGrowthRecord (m : ByYear (List Building)) (p c : ℤ) :
    BuildingGrowthRecord :=
  let prevCount : ℚ := buildingCount m p
  let currCount : ℚ := buildingCount m c
  let prevArea := buildingTotalArea m p
  let currArea := buildingTotalArea m c
  let countGrowth := growthPercent prevCount currCount
  let areaGrowth := growthPercent prevArea currArea
  { count_growth_percent := countGrowth
    area_growth_percent := areaGrowth
    new_buildings := (buildingCount m c : ℤ) - (buildingCount m p : ℤ)
    new_area_m2 := currArea - prevArea
    years_elapsed := c - p
    annual_count_growth_percent := countGrowth / ((c : ℚ) - (p : ℚ))
    annual_area_growth_percent := areaGrowth / ((c : ℚ) - (p : ℚ)) }

/-- Result dict of `calculate_building_growth` (the `{}` result is
`none`). -/
structure BuildingGrowthMetrics where
  years : List ℤ
  building_counts : List (ℤ × ℕ)
  total_area_m2 : List (ℤ × ℚ)
  average_building_size_m2 : List (ℤ × ℚ)
  building_types : List (ℤ × List (String × ℕ))
  growth_rates : List ((ℤ × ℤ) × BuildingGrowthRecord)
deriving DecidableEq

/-- `GrowthMetrics.calculate_building_growth`. -/
def calculate_building_growth (m : ByYear (List Building)) :
    Option BuildingGrowthMetrics :=
  if m.length < 2 then none
  else
    let years := sortedYears m
    some
      { years := years
        building_counts := years.map fun y => (y, buildingCount m y)
        total_area_m2 := years.map fun y => (y, buildingTotalArea m y)
        average_building_size_m2 := years.map fun y => (y, buildingAvgArea m y)
        building_types := years.map fun y => (y, buildingTypes m y)
        growth_rates := (consecutivePairs years).map fun pc =>
          (pc, buildingGrowthRecord m pc.1 pc.2) }

/-- `metrics['road_counts'][year]`. -/
def roadCount (m : ByYear (List Road)) (y : ℤ) : ℕ :=
  (getYear m y).length

/-- `metrics['total_length_km'][year]`: sum of `length_m` / 1000. -/
def roadTotalLengthKm (m : ByYear (List Road)) (y : ℤ) : ℚ :=
  ((getYear m y).map Road.length_m).sum / 1000

/-- `metrics['road_types'][year]` from the `highway` column. -/
def roadTypes (m : ByYear (List Road)) (y : ℤ) : List (String × ℕ) :=
  valueCounts ((getYear m y).map Road.highway)

/-- One entry of `metrics['growth_rates']` for roads. -/
structure RoadGrowthRecord where
  count_growth_percent : ℚ
  length_growth_percent : ℚ
  new_roads : ℤ
  new_length_km : ℚ
  years_elapsed : ℤ
  annual_count_growth_percent : ℚ
  annual_length_growth_percent : ℚ
deriving DecidableEq

/-- The record computed for the consecutive pair `(p, c)` in
`calculate_road_growth`. -/
def roadGrowthRecord (m : ByYear (List Road)) (p c : ℤ) : RoadGrowthRecord :=
  let prevCount : ℚ := roadCount m p
  let currCount : ℚ := roadCount m c
  let prevLen := roadTotalLengthKm m p
  let currLen := roadTotalLengthKm m c
  let countGrowth := growthPercent prevCount currCount
  let lengthGrowth := growthPercent prevLen currLen
  { count_growth_percent := countGrowth
    length_growth_percent := lengthGrowth
    new_roads := (roadCount m c : ℤ) - (roadCount m p : ℤ)
    new_length_km := currLen - prevLen
    years_elapsed := c - p
    annual_count_growth_percent := countGrowth / ((c : ℚ) - (p : ℚ))
    annual_length_growth_percent := lengthGrowth / ((c : ℚ) - (p : ℚ)) }

/-- Result dict of `calculate_road_growth`. -/
structure RoadGrowthMetrics where
  years : List ℤ
  road_counts : List (ℤ × ℕ)
  total_length_km : List (ℤ × ℚ)
  road_types : List (ℤ × List (String × ℕ))
  growth_rates : List ((ℤ × ℤ) × RoadGrowthRecord)
deriving DecidableEq

/-- `GrowthMetrics.calculate_road_growth` (the per-year
`road_density_km_per_km2` column of the source is computed identically to
`total_length_km` it never—skipping it loses no claim-relevant content;
see `calculate_density_metrics` for the density helpers). -/
def calculate_road_growth (m : ByYear (List Road)) : Option RoadGrowthMetrics :=
  if m.length < 2 then none
  else
    let years := sortedYears m
    some
      { years := years
        road_counts := years.map fun y => (y, roadCount m y)
        total_length_km := years.map fun y => (y, roadTotalLengthKm m y)
        road_types := years.map fun y => (y, roadTypes m y)
        growth_rates := (consecutivePairs years).map fun pc =>
          (pc, roadGrowthRecord m pc.1 pc.2) }

/-- `landuse.groupby(landuse_col)['area_m2'].sum().to_dict()`. -/
def landuseAreasByType (l : List LandusePatch) : List (String × ℚ) :=
  (l.map LandusePatch.landuse_category).dedup.map fun t =>
    (t, ((l.filter fun f => f.landuse_category = t).map LandusePatch.area_m2).sum)

/-- `metrics['landuse_areas_m2'][year]` ({} for an empty collection). -/
def landuseAreas (m : ByYear (List LandusePatch)) (y : ℤ) : List (String × ℚ) :=
  landuseAreasByType (getYear m y)

/-- `metrics['landuse_percentages'][year]`. -/
def landusePercentages (m : ByYear (List LandusePatch)) (y : ℤ) :
    List (String × ℚ) :=
  let areas := landuseAreas m y
  let total := (areas.map Prod.snd).sum
  if total > 0 then areas.map fun kv => (kv.1, kv.2 / total * 100) else []

/-- `prev_areas.get(landuse_type, 0)`. -/
def areaOfType (areas : List (String × ℚ)) (t : String) : ℚ :=
  (alistGet areas t).getD 0

/-- One land-use transition record. -/
structure LanduseTransition where
  prev_area_m2 : ℚ
  curr_area_m2 : ℚ
  change_m2 : ℚ
  percent_change : ℚ
deriving DecidableEq

/-- The transitions dict for the consecutive pair `(p, c)`:
`all_types = set(prev) | set(curr)`, missing categories count as 0 area. -/
def landuseTransitions (m : ByYear (List LandusePatch)) (p c : ℤ) :
    List (String × LanduseTransition) :=
  let prevAreas := landuseAreas m p
  let currAreas := landuseAreas m c
  let allTypes := (prevAreas.map Prod.fst ++ currAreas.map Prod.fst).dedup
  allTypes.map fun t =>
    let prevA := areaOfType prevAreas t
    let currA := areaOfType currAreas t
    let change := currA - prevA
    (t, { prev_area_m2 := prevA
          curr_area_m2 := currA
          change_m2 := change
          percent_change := if prevA > 0 then change / prevA * 100 else 0 })

/-- Result dict of `calculate_landuse_changes`. -/
structure LanduseChangeMetrics where
  years : List ℤ
  landuse_areas_m2 : List (ℤ × List (String × ℚ))
  landuse_percentages : List (ℤ × List (String × ℚ))
  transitions : List ((ℤ × ℤ) × List (String × LanduseTransition))
deriving DecidableEq

/-- `GrowthMetrics.calculate_landuse_changes`. -/
def calculate_landuse_changes (m : ByYear (List LandusePatch)) :
    Option LanduseChangeMetrics :=
  if m.length < 2 then none
  else
    let years := sortedYears m
    some
      { years := years
        landuse_areas_m2 := years.map fun y => (y, landuseAreas m y)
        landuse_percentages := years.map fun y => (y, landusePercentages m y)
        transitions := (consecutivePairs years).map fun pc =>
          (pc, landuseTransitions m pc.1 pc.2) }

/-- Result dict of `calculate_density_metrics` (helpers
`calculate_building_density` / `calculate_road_density` merged into it,
as the source builds one merged dict; the source key of
`building_coverage_frac` ends in a suffix this development cannot use as a
name, hence the rename). -/
structure DensityMetrics where
  buildings_per_km2 : ℚ
  building_coverage_frac : ℚ
  avg_building_area_m2 : ℚ
  road_length_km_per_km2 : ℚ
  total_road_length_km : ℚ
deriving DecidableEq

/-- `calculate_building_density` (helpers.py): counts per km², raw shapely
degree-area sum over the analysis area, mean building area. -/
def calculate_building_density (buildings : List Building) (area_km2 : ℚ) :
    (ℚ × ℚ × ℚ) :=
  if buildings = [] ∨ area_km2 ≤ 0 then (0, 0, 0)
  else
    let count : ℚ := buildings.length
    let totalArea := (buildings.map fun b => b.geometry.area).sum
    (count / area_km2, totalArea / (area_km2 * 1000000),
      if buildings.length > 0 then totalArea / count else 0)

/-- `calculate_road_density` (helpers.py). -/
def calculate_road_density (roads : List Road) (area_km2 : ℚ) : (ℚ × ℚ) :=
  if roads = [] ∨ area_km2 ≤ 0 then (0, 0)
  else
    let totalLenKm := (roads.map fun r => r.geometry.length).sum / 1000
    (totalLenKm / area_km2, totalLenKm)

/-- `GrowthMetrics.calculate_density_metrics`. -/
def calculate_density_metrics (buildings : List Building) (roads : List Road)
    (analysis_area_km2 : ℚ) : DensityMetrics :=
  let b := if buildings ≠ [] ∧ analysis_area_km2 > 0 then
    calculate_building_density buildings analysis_area_km2 else (0, 0, 0)
  let r := if roads ≠ [] ∧ analysis_area_km2 > 0 then
    calculate_road_density roads analysis_area_km2 else (0, 0)
  { buildings_per_km2 := b.1
    building_coverage_frac := b.2.1
    avg_building_area_m2 := b.2.2
    road_length_km_per_km2 := r.1
    total_road_length_km := r.2 }

/-- Result dict of `calculate_compactness_metrics` (the first source key is
the compactness quotient mean; its source spelling ends in a suffix this
development cannot use as a name, hence `compactness_quotient`). -/
structure CompactnessMetrics where
  compactness_quotient : ℚ
  average_nearest_neighbor_distance : ℚ
  building_cluster_count : ℕ
deriving DecidableEq

/-- Average nearest-neighbour centroid distance: for each index `i`, the
minimum distance to any other centroid, converted to meters; then the
mean. -/
def avgNearestNeighbor (ops : GeoOps) (centroids : List (ℚ × ℚ)) : ℚ :=
  meanQ ((List.range centroids.length).map fun i =>
    let p := centroids.getD i (0, 0)
    minQ (((List.range centroids.length).filter fun j => j ≠ i).map fun j =>
      ops.dist p (centroids.getD j (0, 0))) * M_PER_DEG)

/-- `GrowthMetrics.calculate_compactness_metrics`.  The try/except wrapper
of the source cannot fire in this total model. -/
def calculate_compactness_metrics (ops : GeoOps) (buildings : List Building) :
    CompactnessMetrics :=
  if buildings = [] then
    { compactness_quotient := 0
      average_nearest_neighbor_distance := 0
      building_cluster_count := 0 }
  else
    let valid := buildings.filter fun b => b.geometry.length > 0
    let compactness := if valid = [] then 0
      else meanQ (valid.map fun b => b.geometry.area / b.geometry.length ^ 2)
    let annd := if buildings.length > 1 then
      avgNearestNeighbor ops (buildings.map fun b => b.geometry.centroid)
      else 0
    { compactness_quotient := compactness
      average_nearest_neighbor_distance := annd
      building_cluster_count :=
        ops.unionComponentCount (buildings.map Building.geometry)
          (100 / M_PER_DEG) }

/-- `centroids.unary_union.centroid`: shapely collapses duplicate points in
the union; the multipoint centroid is the mean of the distinct points. -/
def centroidOfPoints (pts : List (ℚ × ℚ)) : ℚ × ℚ :=
  (meanQ (pts.dedup.map Prod.fst), meanQ (pts.dedup.map Prod.snd))

/-- One `growth_vectors` entry of `calculate_growth_direction_metrics`. -/
structure GrowthVector where
  distance_m : ℚ
  direction_degrees : ℚ
  dx : ℚ
  dy : ℚ
deriving DecidableEq

/-- Result dict of `calculate_growth_direction_metrics`. -/
structure GrowthDirectionMetrics where
  years : List ℤ
  center_of_mass : List (ℤ × Option (ℚ × ℚ))
  mean_distance_from_center : List (ℤ × ℚ)
  growth_vectors : List ((ℤ × ℤ) × GrowthVector)
deriving DecidableEq

/-- All buildings of all years, in year-map order (`pd.concat`). -/
def allBuildings (m : ByYear (List Building)) : List Building :=
  m.foldr (fun yc acc => yc.2 ++ acc) []

/-- `metrics['center_of_mass'][year]`. -/
def centerOfMass (m : ByYear (List Building)) (y : ℤ) : Option (ℚ × ℚ) :=
  if getYear m y = [] then none
  else some (centroidOfPoints ((getYear m y).map fun b => b.geometry.centroid))

/-- `GrowthMetrics.calculate_growth_direction_metrics`. -/
def calculate_growth_direction_metrics (ops : GeoOps)
    (m : ByYear (List Building)) (center? : Option (ℚ × ℚ)) :
    Option GrowthDirectionMetrics :=
  if m.length < 2 then none
  else
    let years := sortedYears m
    let center := match center? with
      | some c => some c
      | none =>
        if allBuildings m = [] then none
        else some (centroidOfPoints
          ((allBuildings m).map fun b => b.geometry.centroid))
    match center with
    | none => some { years := years, center_of_mass := []
                     mean_distance_from_center := [], growth_vectors := [] }
    | some cp =>
      some
        { years := years
          center_of_mass := years.map fun y => (y, centerOfMass m y)
          mean_distance_from_center := years.map fun y =>
            (y, if getYear m y = [] then 0
                else meanQ ((getYear m y).map fun (b : Building) =>
                  ops.dist cp b.geometry.centroid * M_PER_DEG))
          growth_vectors := ((consecutivePairs years).filterMap fun (pc : ℤ × ℤ) =>
            match centerOfMass m pc.1, centerOfMass m pc.2 with
            | some pcom, some ccom =>
              let dx := ccom.1 - pcom.1
              let dy := ccom.2 - pcom.2
              let dir := ops.atan2deg dy dx
              some (pc,
                { distance_m := ops.hypot dx dy * M_PER_DEG
                  direction_degrees := if dir < 0 then dir + 360 else dir
                  dx := dx, dy := dy })
            | _, _ => none) }

/-! ## helpers.py — analysis grid -/

/-- Number of elements of `numpy.arange(a, b, s)` for step `s > 0`:
the count of naturals `n` with `a + n*s < b`. -/
def arangeLen (a b s : ℚ) : ℕ := (⌈(b - a) / s⌉).toNat

/-- One grid cell: the closed square polygon
`[(x,y),(x+s,y),(x+s,y+s),(x,y+s),(x,y)]` plus its `grid_id`. -/
structure GridCell where
  grid_id : String
  west : ℚ
  south : ℚ
  east : ℚ
  north : ℚ
deriving DecidableEq

/-- `f"grid_{i}_{j}"`. -/
def gridId (i j : ℕ) : String :=
  "grid_" ++ toString i ++ "_" ++ toString j

/-- The cell at column `i` (west→east) and row `j` (south→north). -/
def gridCell (west south s : ℚ) (i j : ℕ) : GridCell :=
  { grid_id := gridId i j
    west := west + i * s
    south := south + j * s
    east := west + i * s + s
    north := south + j * s + s }

/-- `create_analysis_grid` (helpers.py): lattice of square cells of side
`grid_size_km / 111.32` degrees; `x_coords = arange(west, east + s, s)`,
`y_coords = arange(south, north + s, s)`, both with the final element
dropped; outer loop over `i` (x), inner over `j` (y). -/
def create_analysis_grid (bbox : ℚ × ℚ × ℚ × ℚ) (grid_size_km : ℚ) :
    List GridCell :=
  let s := grid_size_km / KM_PER_DEG
  let nx := arangeLen bbox.2.1 (bbox.2.2.2 + s) s - 1
  let ny := arangeLen bbox.1 (bbox.2.2.1 + s) s - 1
  (List.range nx).flatMap fun i =>
    (List.range ny).map fun j => gridCell bbox.2.1 bbox.1 s i j

/-! ## spatial.py — SpatialAnalyzer -/

/-- A point feature intersects a closed grid-cell polygon iff it lies in
the closed rectangle (hotspot detection is modelled on point-geometry
features, a supported feature geometry). -/
def pointInCell (p : ℚ × ℚ) (c : GridCell) : Bool :=
  decide (c.west ≤ p.1 ∧ p.1 ≤ c.east ∧ c.south ≤ p.2 ∧ p.2 ≤ c.north)

/-- Per-cell density: buildings intersecting the cell divided by
`grid_size_km ** 2` (cells the spatial join misses are refilled with 0,
which coincides with a 0 count). -/
def cellDensity (pts : List (ℚ × ℚ)) (grid_size_km : ℚ) (c : GridCell) : ℚ :=
  ((pts.filter fun p => pointInCell p c).length : ℚ) / grid_size_km ^ 2

/-- The density series of one year, in grid order. -/
def yearDensities (grid : List GridCell) (pts : List (ℚ × ℚ))
    (grid_size_km : ℚ) : List ℚ :=
  grid.map (cellDensity pts grid_size_km)

/-- `pandas.Series.quantile(q)` with the default linear interpolation, on
the sorted values (0 on an empty series, which the code never hits: the
grid of a valid bbox is non-empty). -/
def seriesQuantile (xs : List ℚ) (q : ℚ) : ℚ :=
  let s := List.insertionSort (· ≤ ·) xs
  if s.length = 0 then 0
  else
    let h : ℚ := q * ((s.length : ℚ) - 1)
    let lo := (⌊h⌋).toNat
    let frac := h - ⌊h⌋
    let a := s.getD lo 0
    let b := s.getD (min (lo + 1) (s.length - 1)) 0
    a + frac * (b - a)

/-- `relative_growth = ((curr - prev)/prev * 100).fillna(0)` followed by
`.replace([inf, -inf], 0)`: float division by a zero previous density
yields NaN (0/0) or ±inf, and both patches turn it into exactly 0. -/
def hotspotRelGrowth (prev curr : ℚ) : ℚ :=
  if prev = 0 then 0 else (curr - prev) / prev * 100

/-- Per-cell absolute growth series for the pair `(p, c)`, in grid
order. -/
def periodGrowthAbs (m : ByYear (List (ℚ × ℚ))) (grid : List GridCell)
    (grid_size_km : ℚ) (p c : ℤ) : List ℚ :=
  List.zipWith (fun cu pr => cu - pr)
    (yearDensities grid (getYear m c) grid_size_km)
    (yearDensities grid (getYear m p) grid_size_km)

/-- Per-cell relative growth series for the pair `(p, c)`. -/
def periodGrowthRel (m : ByYear (List (ℚ × ℚ))) (grid : List GridCell)
    (grid_size_km : ℚ) (p c : ℤ) : List ℚ :=
  List.zipWith (fun pr cu => hotspotRelGrowth pr cu)
    (yearDensities grid (getYear m p) grid_size_km)
    (yearDensities grid (getYear m c) grid_size_km)

/-- One row of a period's hotspot GeoDataFrame: the grid cell plus its
`absolute_growth` and `relative_growth` columns. -/
structure HotspotCell where
  cell : GridCell
  absolute_growth : ℚ
  relative_growth : ℚ
deriving DecidableEq

/-- The hotspot rows of the pair `(p, c)`: the `growth >= quantile(0.8)`
filter over the grid (inclusive), in grid order. -/
def periodHotspots (m : ByYear (List (ℚ × ℚ))) (grid : List GridCell)
    (grid_size_km : ℚ) (p c : ℤ) : List HotspotCell :=
  let absG := periodGrowthAbs m grid grid_size_km p c
  let relG := periodGrowthRel m grid grid_size_km p c
  let threshold := seriesQuantile absG (4/5)
  ((grid.zip (absG.zip relG)).filter fun cr => threshold ≤ cr.2.1).map
    fun cr => { cell := cr.1, absolute_growth := cr.2.1
                relative_growth := cr.2.2 }

/-- `gdf.total_bounds`-derived bbox of `detect_growth_hotspots` when none
is supplied: `(min y, min x, max y, max x)` over all features of all
years (the code builds the tuple in `(south, west, north, east)` order,
which is how `create_analysis_grid` then unpacks it). -/
def derivedBbox (m : ByYear (List (ℚ × ℚ))) : Option (ℚ × ℚ × ℚ × ℚ) :=
  let pts := m.foldr (fun yc acc => yc.2 ++ acc) []
  if pts = [] then none
  else
    some (minQ (pts.map Prod.snd), minQ (pts.map Prod.fst),
          maxQ (pts.map Prod.snd), maxQ (pts.map Prod.fst))

/-- Result dict of `detect_growth_hotspots`. -/
structure HotspotResult where
  grid : List GridCell
  grid_densities : List (ℤ × List ℚ)
  growth_rates : List ((ℤ × ℤ) × (List ℚ × List ℚ))
  hotspots : List ((ℤ × ℤ) × List HotspotCell)
  grid_size_km : ℚ
  bbox : ℚ × ℚ × ℚ × ℚ
deriving DecidableEq

/-- `SpatialAnalyzer.detect_growth_hotspots` on point features. -/
def detect_growth_hotspots (m : ByYear (List (ℚ × ℚ)))
    (grid_size_km : ℚ) (bbox? : Option (ℚ × ℚ × ℚ × ℚ)) :
    Option HotspotResult :=
  if m.length < 2 then none
  else
    let years := sortedYears m
    match bbox?.orElse (fun _ => derivedBbox m) with
    | none => none
    | some bbox =>
      let grid := create_analysis_grid bbox grid_size_km
      some
        { grid := grid
          grid_densities := years.map fun y =>
            (y, yearDensities grid (getYear m y) grid_size_km)
          growth_rates := (consecutivePairs years).map fun pc =>
            (pc, (periodGrowthAbs m grid grid_size_km pc.1 pc.2,
                  periodGrowthRel m grid grid_size_km pc.1 pc.2))
          hotspots := (consecutivePairs years).map fun pc =>
            (pc, periodHotspots m grid grid_size_km pc.1 pc.2)
          grid_size_km := grid_size_km
          bbox := bbox }

/-- `_calculate_distance_bands`: fixed-width bands from 0 to the maximum
observed distance; a band key `f"{start:.1f}-{end:.1f}km"` is modelled by
the `(start, end)` pair in km. -/
def calculate_distance_bands (distances : List ℚ) (band_width_km : ℚ) :
    List ((ℚ × ℚ) × ℕ) :=
  if distances = [] then []
  else
    let maxDistKm := maxQ distances / 1000
    let numBands := (⌈maxDistKm / band_width_km⌉).toNat
    (List.range numBands).map fun i =>
      let bandStart := (i : ℚ) * band_width_km
      let bandEnd := ((i : ℚ) + 1) * band_width_km
      ((bandStart, bandEnd),
        distances.countP fun d =>
          decide (bandStart * 1000 ≤ d ∧ d < bandEnd * 1000))

/-- One year's `sprawl_indices` entry ({} for an empty year is `none` at
the use site). -/
structure SprawlIndices where
  mean_distance_from_center : ℚ
  max_distance_from_center : ℚ
  std_distance_from_center : ℚ
  buildings_count : ℕ
  density_gradient : List ((ℚ × ℚ) × ℕ)
deriving DecidableEq

/-- Result dict of `analyze_urban_sprawl`. -/
structure SprawlResult where
  years : List ℤ
  urban_extent : List (ℤ × ℚ)
  sprawl_indices : List (ℤ × Option SprawlIndices)
  distance_bands : List (ℤ × Option (List ((ℚ × ℚ) × ℕ)))
deriving DecidableEq

/-- `SpatialAnalyzer.analyze_urban_sprawl`.  The hull-area try/except of
the source cannot fire in this total model. -/
def analyze_urban_sprawl (ops : GeoOps) (m : ByYear (List Building))
    (center? : Option (ℚ × ℚ)) : Option SprawlResult :=
  if m.length < 2 then none
  else
    let years := sortedYears m
    let center := match center? with
      | some c => some c
      | none =>
        if allBuildings m = [] then none
        else some (centroidOfPoints
          ((allBuildings m).map fun b => b.geometry.centroid))
    match center with
    | none => some { years := years, urban_extent := []
                     sprawl_indices := [], distance_bands := [] }
    | some cp =>
      some
        { years := years
          urban_extent := years.map fun y =>
            (y, if getYear m y = [] then 0
                else ops.convexHullArea ((getYear m y).map Building.geometry))
          sprawl_indices := years.map fun y =>
            (y, if getYear m y = [] then none
                else
                  let distances := (getYear m y).map fun (b : Building) =>
                    ops.dist cp b.geometry.centroid * M_PER_DEG
                  some
                    { mean_distance_from_center := meanQ distances
                      max_distance_from_center := maxQ distances
                      std_distance_from_center := ops.stdDev distances
                      buildings_count := (getYear m y).length
                      density_gradient := calculate_distance_bands distances 2 })
          distance_bands := years.map fun y =>
            (y, if getYear m y = [] then none
                else
                  some (calculate_distance_bands
                    ((getYear m y).map fun (b : Building) =>
                      ops.dist cp b.geometry.centroid * M_PER_DEG) 2)) }

/-- `SpatialAnalyzer.detect_building_clusters`: each row gains a
`cluster_id` label and an `is_clustered = (cluster_id != -1)` flag. -/
def detect_building_clusters (ops : GeoOps) (buildings : List Building)
    (eps_meters : ℚ) (min_samples : ℕ) : List (Building × ℤ × Bool) :=
  if buildings = [] then []
  else
    let labels := ops.dbscanLabels
      (buildings.map fun b => b.geometry.centroid)
      (eps_meters / M_PER_DEG) min_samples
    (buildings.zip labels).map fun bl => (bl.1, bl.2, bl.2 ≠ -1)

/-- One row of `analyze_accessibility`'s result: the building plus the
`distance_to_road_m` (`none` models `numpy.inf`) and `accessible`
columns. -/
structure AccessRow where
  building : Building
  distance_to_road_m : Option ℚ
  accessible : Bool
deriving DecidableEq

/-- `SpatialAnalyzer.analyze_accessibility`. -/
def analyze_accessibility (ops : GeoOps) (buildings : List Building)
    (roads : List Road) (max_distance_m : ℚ) : List AccessRow :=
  if buildings = [] then []
  else if roads = [] then
    buildings.map fun b =>
      { building := b, distance_to_road_m := none, accessible := false }
  else
    buildings.map fun b =>
      let d := ops.distToUnion b.geometry.centroid (roads.map Road.geometry)
        * M_PER_DEG
      { building := b, distance_to_road_m := some d
        accessible := decide (d ≤ max_distance_m) }

/-- Per-landuse-type fragmentation record. -/
structure FragMetrics where
  patch_count : ℕ
  total_area_m2 : ℚ
  mean_patch_area_m2 : ℚ
  largest_patch_area_m2 : ℚ
  patch_density_per_km2 : ℚ
  total_edge_length_m : ℚ
  edge_density : ℚ
deriving DecidableEq

/-- `SpatialAnalyzer.calculate_fragmentation_metrics` ({} on empty
input). -/
def calculate_fragmentation_metrics (ops : GeoOps)
    (landuse : List LandusePatch) : List (String × FragMetrics) :=
  if landuse = [] then []
  else
    (landuse.map LandusePatch.landuse_category).dedup.map fun t =>
      let typePolys := landuse.filter fun f => f.landuse_category = t
      let areas := typePolys.map fun f => ops.calcArea f.geometry
      let totalArea := areas.sum
      let perims := typePolys.map fun f => f.geometry.length * M_PER_DEG
      let edgeLen := perims.sum
      (t,
        { patch_count := typePolys.length
          total_area_m2 := totalArea
          mean_patch_area_m2 := meanQ areas
          largest_patch_area_m2 := maxQ areas
          patch_density_per_km2 :=
            if totalArea > 0 then
              (typePolys.length : ℚ) / (totalArea / 1000000)
            else 0
          total_edge_length_m := edgeLen
          edge_density := if totalArea > 0 then edgeLen / totalArea else 0 })

/-- `connectivity_metrics['road_network']`. -/
structure RoadNetworkMetrics where
  total_length_km : ℚ
  segment_count : ℕ
  road_density_km_per_km2 : ℚ
  average_segment_length_m : ℚ
deriving DecidableEq

/-- `connectivity_metrics['building_clusters']`. -/
structure BuildingClusterMetrics where
  cluster_count : ℕ
  clustered_buildings : ℕ
  isolated_buildings : ℕ
  largest_cluster_size : ℕ
  average_cluster_size : ℚ
deriving DecidableEq

/-- Result dict of `analyze_connectivity` ({} is `none`; either sub-dict is
omitted when its input is empty). -/
structure ConnectivityMetrics where
  road_network : Option RoadNetworkMetrics
  building_clusters : Option BuildingClusterMetrics
deriving DecidableEq

/-- `SpatialAnalyzer.analyze_connectivity`. -/
def analyze_connectivity (ops : GeoOps) (buildings : List Building)
    (roads : List Road) : Option ConnectivityMetrics :=
  if buildings = [] ∧ roads = [] then none
  else
    let roadNet : Option RoadNetworkMetrics :=
      if roads = [] then none
      else
        let totalLen := (roads.map fun r => r.geometry.length).sum * M_PER_DEG
        let density :=
          if buildings = [] then 0
          else
            let urbanKm2 :=
              ((buildings.map fun b => ops.calcArea b.geometry).sum) / 1000000
            if urbanKm2 > 0 then totalLen / 1000 / urbanKm2 else 0
        some
          { total_length_km := totalLen / 1000
            segment_count := roads.length
            road_density_km_per_km2 := density
            average_segment_length_m :=
              if roads.length > 0 then totalLen / (roads.length : ℚ) else 0 }
    let clusters : Option BuildingClusterMetrics :=
      if buildings = [] then none
      else
        let rows := detect_building_clusters ops buildings 100 5
        let labels := rows.map fun r => r.2.1
        let validLabels := (labels.filter fun l => l ≠ -1).dedup
        let sizes := validLabels.map fun l => labels.count l
        some
          { cluster_count := validLabels.length
            clustered_buildings := rows.countP fun r => r.2.2
            isolated_buildings := rows.countP fun r => ¬r.2.2
            largest_cluster_size := sizes.foldl max 0
            average_cluster_size :=
              if sizes = [] then 0 else meanQ (sizes.map fun n => (n : ℚ)) }
    some { road_network := roadNet, building_clusters := clusters }

/-! ## helpers.py — split_large_bbox

The chunk area is `width_km * height_km` with both sides measured by the
haversine formula (transcendental); the resulting area value is passed to
the embedding as the `area_km2` argument, and the claims quantify over
it. -/

/-- `math.ceil(math.sqrt(r))` for a rational `r ≥ 0`: the least natural
`n` with `r ≤ n²`. -/
def ceilSqrtNat (r : ℚ) : ℕ :=
  let n0 := Nat.sqrt (⌈r⌉).toNat
  if r ≤ (n0 : ℚ) ^ 2 then n0 else n0 + 1

/-- A bounding box `(south, west, north, east)`. -/
abbrev BBox := ℚ × ℚ × ℚ × ℚ

/-- The sub-box at grid position `(i, j)` produced by `split_large_bbox`. -/
def subBBox (bbox : BBox) (divs : ℕ) (i j : ℕ) : BBox :=
  let latStep := (bbox.2.2.1 - bbox.1) / (divs : ℚ)
  let lonStep := (bbox.2.2.2 - bbox.2.1) / (divs : ℚ)
  (bbox.1 + i * latStep, bbox.2.1 + j * lonStep,
   bbox.1 + (i + 1 : ℕ) * latStep, bbox.2.1 + (j + 1 : ℕ) * lonStep)

/-- `split_large_bbox` (helpers.py), with the haversine-derived
`area_km2` of the box supplied as an argument. -/
def split_large_bbox (bbox : BBox) (area_km2 : ℚ) (max_area_km2 : ℚ) :
    List BBox :=
  if area_km2 ≤ max_area_km2 then [bbox]
  else
    let d := ceilSqrtNat (area_km2 / max_area_km2)
    (List.range d).flatMap fun i =>
      (List.range d).map fun j => subBBox bbox d i j

/-! ## processor.py — DataProcessor.remove_duplicates -/

/-- One feature row as seen by `remove_duplicates`: a point geometry (a
supported feature geometry, for which `buffer(t)` is the closed disc of
radius `t`) and the row's attribute cells (`none` = null). -/
structure PFeature where
  x : ℚ
  y : ℚ
  attrs : List (Option String)
deriving DecidableEq

/-- `buffered.iloc[i].intersects(buffered.iloc[j])` for point geometries:
the two closed discs of radius `tolerance` meet iff the centre distance is
at most `2 * tolerance`, i.e. squared distance at most `(2t)²`. -/
def bufferedIntersects (a b : PFeature) (tolerance : ℚ) : Bool :=
  decide ((a.x - b.x) ^ 2 + (a.y - b.y) ^ 2 ≤ (2 * tolerance) ^ 2)

/-- `gdf.iloc[i].count()`: the number of non-null cells of the row (the
geometry column is always non-null here). -/
def rowCount (f : PFeature) : ℕ :=
  1 + f.attrs.countP fun a => a.isSome

/-- The inner `for j in range(i+1, len(gdf))` loop of `remove_duplicates`:
scan `js`, skipping already-marked rows; on an overlap mark `j` when
`count(i) >= count(j)` and continue, otherwise mark `i` and break. -/
def dupInner (near : ℕ → ℕ → Bool) (cnt : ℕ → ℕ) (i : ℕ) :
    List ℕ → List ℕ → List ℕ
  | [], dups => dups
  | j :: js, dups =>
    if j ∈ dups then dupInner near cnt i js dups
    else if near i j then
      if cnt j ≤ cnt i then dupInner near cnt i js (j :: dups)
      else i :: dups
    else dupInner near cnt i js dups

/-- The outer `for i in range(len(gdf))` loop of `remove_duplicates`. -/
def dupOuter (near : ℕ → ℕ → Bool) (cnt : ℕ → ℕ) (n : ℕ) :
    List ℕ → List ℕ → List ℕ
  | [], dups => dups
  | i :: is, dups =>
    if i ∈ dups then dupOuter near cnt n is dups
    else dupOuter near cnt n is
      (dupInner near cnt i (List.range' (i + 1) (n - (i + 1))) dups)

/-- `DataProcessor.remove_duplicates`: mark duplicates by the pairwise
buffered-overlap scan, then keep the unmarked rows in order.  The
try/except wrapping of the source cannot fire in this total model. -/
def remove_duplicates (gdf : List PFeature) (tolerance : ℚ) :
    List PFeature :=
  if gdf.length ≤ 1 then gdf
  else
    let near := fun i j =>
      bufferedIntersects (gdf.getD i ⟨0, 0, []⟩) (gdf.getD j ⟨0, 0, []⟩)
        tolerance
    let cnt := fun i => rowCount (gdf.getD i ⟨0, 0, []⟩)
    let dups := dupOuter near cnt gdf.length (List.range gdf.length) []
    (List.range gdf.length).filterMap fun i =>
      if i ∈ dups then none else gdf.get? i

/-! ## cache.py — CacheManager

The filesystem is modelled as an association list from
`(namespace, filename)` to the file's content and modification time; the
pickled payload of a data file is `blob d`, a corrupt blob is `corrupt`,
the JSON metadata file is `meta`.  Times (`mtime`, `now`) and the TTL are
rationals in hours.  The MD5 digest (an external primitive) is modelled as
a string-to-string function parameter `md5`; every theorem holds for every
such function. -/

/-- Metadata record written by `save_osm_data`. -/
structure CacheMeta where
  bbox : BBox
  features : List String
  date_filter : Option String
  cached_at : ℚ
  record_count : ℕ
  cache_key : String
deriving DecidableEq

/-- Content of one cache file. -/
inductive CacheContent (Data : Type) where
  | blob (d : Data)
  | meta (m : CacheMeta)
  | corrupt
deriving DecidableEq

/-- The cache directory: `(namespace, filename) → (content, mtime)`,
newest entry first. -/
structure CacheState (Data : Type) where
  files : List ((String × String) × (CacheContent Data × ℚ))
deriving DecidableEq

/-- Serialize one rational the way `json.dumps` stringifies the value
(deterministic and injective, which is all the key derivation needs). -/
def jsonNum (q : ℚ) : String := toString q

/-- `json.dumps(features)` of a string list. -/
def jsonStrList (l : List String) : String :=
  "[" ++ String.intercalate ", " (l.map fun s => "\"" ++ s ++ "\"") ++ "]"

/-- `json.dumps(data, sort_keys=True, default=str)` of the key dict
`{"bbox": ..., "date_filter": ..., "features": ..., "type": ...}` (keys in
sorted order). -/
def cacheKeyPayload (bbox : BBox) (features : List String)
    (date_filter : Option String) (tag : String) : String :=
  "\x7b\"bbox\": [" ++
    String.intercalate ", "
      [jsonNum bbox.1, jsonNum bbox.2.1, jsonNum bbox.2.2.1,
        jsonNum bbox.2.2.2] ++
  "], \"date_filter\": " ++
    (date_filter.elim "null" fun s => "\"" ++ s ++ "\"") ++
  ", \"features\": " ++ jsonStrList features ++
  ", \"type\": \"" ++ tag ++ "\"\x7d"

/-- `_generate_cache_key` for the osm-data namespace: MD5 of the canonical
payload with `sorted(features)`. -/
def osmCacheKey (md5 : String → String) (bbox : BBox)
    (features : List String) (date_filter : Option String) : String :=
  md5 (cacheKeyPayload bbox (List.insertionSort (· ≤ ·) features)
    date_filter "osm_data")

/-- `_get_cache_path`. -/
def cachePath (cache_type : String) (cache_key : String)
    (file_format : String) : String × String :=
  (cache_type, cache_key ++ "." ++ file_format)

/-- Look a file up. -/
def CacheState.find {Data : Type} (st : CacheState Data)
    (path : String × String) : Option (CacheContent Data × ℚ) :=
  alistGet st.files path

/-- Write (or overwrite) a file with modification time `now`. -/
def CacheState.write {Data : Type} (st : CacheState Data)
    (path : String × String) (content : CacheContent Data) (now : ℚ) :
    CacheState Data :=
  ⟨(path, (content, now)) :: st.files.filter fun kv => kv.1 ≠ path⟩

/-- Delete a file (`Path.unlink(missing_ok=True)`). -/
def CacheState.delete {Data : Type} (st : CacheState Data)
    (path : String × String) : CacheState Data :=
  ⟨st.files.filter fun kv => kv.1 ≠ path⟩

/-- `_is_cache_valid`: the file exists and
`datetime.now() - file_modified < cache_ttl`. -/
def _is_cache_valid {Data : Type} (st : CacheState Data) (now ttl : ℚ)
    (path : String × String) : Bool :=
  match st.find path with
  | none => false
  | some f => decide (now - f.2 < ttl)

/-- `get_osm_data`: returns the cached data and the resulting directory
state.  A valid entry whose pickle fails to load (a corrupt blob, or a
file holding non-pickle content) is deleted; an invalid or missing entry
is left untouched and gives a miss. -/
def get_osm_data {Data : Type} (md5 : String → String)
    (st : CacheState Data) (now ttl : ℚ) (bbox : BBox)
    (features : List String) (date_filter : Option String) :
    Option Data × CacheState Data :=
  let key := osmCacheKey md5 bbox features date_filter
  let path := cachePath "osm_data" key "pkl"
  if _is_cache_valid st now ttl path then
    match st.find path with
    | some (CacheContent.blob d, _) => (some d, st)
    | _ => (none, st.delete path)
  else (none, st)

/-- `save_osm_data`: pickle the data under the derived key and write the
JSON metadata file (the write try/except cannot fire in this model).
`record_count = len(data)` is supplied by the `dataLen` parameter since
`Data` is abstract. -/
def save_osm_data {Data : Type} (md5 : String → String)
    (dataLen : Data → ℕ) (st : CacheState Data) (now : ℚ) (data : Data)
    (bbox : BBox) (features : List String)
    (date_filter : Option String) : CacheState Data :=
  let key := osmCacheKey md5 bbox features date_filter
  let dataPath := cachePath "osm_data" key "pkl"
  let metaPath := cachePath "metadata" key "json"
  let st1 := st.write dataPath (CacheContent.blob data) now
  st1.write metaPath
    (CacheContent.meta
      { bbox := bbox, features := features, date_filter := date_filter
        cached_at := now, record_count := dataLen data, cache_key := key })
    now

/-- The four cache namespaces. -/
def cacheNamespaces : List String :=
  ["osm_data", "processed_data", "analysis_results", "metadata"]

/-- `cleanup_expired_cache`: delete every invalid file of the four
namespaces (returning the resulting state; the source returns the count,
recoverable as the length difference). -/
def cleanup_expired_cache {Data : Type} (st : CacheState Data)
    (now ttl : ℚ) : CacheState Data :=
  ⟨st.files.filter fun kv =>
    kv.1.1 ∉ cacheNamespaces ∨ _is_cache_valid st now ttl kv.1⟩

/-! ## Concrete inputs used by witnesses and counterexamples -/

/-- A trivial `GeoOps` instance used to instantiate the parametric
theorems on concrete inputs. -/
def opsW : GeoOps :=
  { dist := fun _ _ => 0
    calcArea := fun _ => 0
    convexHullArea := fun _ => 0
    unionComponentCount := fun _ _ => 0
    stdDev := fun _ => 0
    atan2deg := fun _ _ => 0
    hypot := fun _ _ => 0
    dbscanLabels := fun _ _ _ => []
    distToUnion := fun _ _ => 0 }

/-- A building of 100 m² (the geometry plays no role in the counting
claims). -/
def bW : Building := ⟨⟨0, 0, (0, 0)⟩, 100, "yes"⟩

/-- Scenario 2 input: 100 buildings in 2020, 150 in 2021. -/
def mW6 : ByYear (List Building) :=
  [(2020, List.replicate 100 bW), (2021, List.replicate 150 bW)]

/-- Fallback record used to name the computed metrics of `mW6`. -/
def emptyBGM : BuildingGrowthMetrics := ⟨[], [], [], [], [], []⟩

/-- The metrics computed for `mW6`. -/
def rW6 : BuildingGrowthMetrics :=
  (calculate_building_growth mW6).getD emptyBGM

/-- The 2020→2021 growth record of `mW6`. -/
def recW6 : BuildingGrowthRecord :=
  (alistGet rW6.growth_rates (2020, 2021)).getD ⟨0, 0, 0, 0, 0, 0, 0⟩

/-- Input with a zero previous year: 0 buildings in 2020, 3 in 2021. -/
def mW1 : ByYear (List Building) :=
  [(2020, []), (2021, List.replicate 3 bW)]

/-- The metrics computed for `mW1`. -/
def rW1 : BuildingGrowthMetrics :=
  (calculate_building_growth mW1).getD emptyBGM

/-- The 2020→2021 growth record of `mW1`. -/
def recW1 : BuildingGrowthRecord :=
  (alistGet rW1.growth_rates (2020, 2021)).getD ⟨1, 1, 0, 0, 0, 0, 0⟩

/-- Hotspot input with two years of empty collections (uniform zero
growth) over an explicit bbox. -/
def mWh : ByYear (List (ℚ × ℚ)) := [(2020, []), (2021, [])]

/-- The bbox used with `mWh`: a 2×2 grid at 1 km cell size. -/
def bboxW : BBox := (0, 0, 1/100, 1/100)

/-- Fallback hotspot record. -/
def emptyHR : HotspotResult := ⟨[], [], [], [], 0, (0, 0, 0, 0)⟩

/-- The hotspot analysis of `mWh`. -/
def rWh : HotspotResult :=
  (detect_growth_hotspots mWh 1 (some bboxW)).getD emptyHR

/-- The hotspot cells `mWh` yields for the period 2020→2021. -/
def hotspotsWh : List HotspotCell :=
  (alistGet rWh.hotspots (2020, 2021)).getD []

/-- A cache directory holding one osm_data entry written at time 0 (hours)
for the parameters `(0,0,1,1)`, `["building"]`, no date filter. -/
def stStale : CacheState ℚ :=
  ⟨[((("osm_data" : String),
      osmCacheKey id (0, 0, 1, 1) ["building"] none ++ ".pkl"),
     (CacheContent.blob 7, 0))]⟩

/-- The path of the single entry of `stStale`. -/
def stalePath : String × String :=
  cachePath "osm_data" (osmCacheKey id (0, 0, 1, 1) ["building"] none) "pkl"

/-- A concrete road row. -/
def rdW : Road := ⟨⟨0, 1/1000, (0, 0)⟩, 111, "residential"⟩

/-- A concrete land-use row. -/
def luW : LandusePatch := ⟨⟨1/1000000, 4/1000, (0, 0)⟩, 12000, "residential"⟩

/-- Single-year building input with a non-empty collection. -/
def mS : ByYear (List Building) := [(2020, [bW])]

/-- Single-year road input with a non-empty collection. -/
def mSr : ByYear (List Road) := [(2020, [rdW])]

/-- Single-year land-use input with a non-empty collection. -/
def mSl : ByYear (List LandusePatch) := [(2020, [luW])]

/-- Single-year point-feature input with a non-empty collection. -/
def mSh : ByYear (List (ℚ × ℚ)) := [(2020, [(0, 0)])]

/-- Two-year building input whose collections are all empty. -/
def mE : ByYear (List Building) := [(2020, []), (2021, [])]

/-- Two-year road input with a zero previous year. -/
def mWr : ByYear (List Road) := [(2020, []), (2021, [rdW])]

/-- The road metrics computed for `mWr`. -/
def rWr : RoadGrowthMetrics :=
  (calculate_road_growth mWr).getD ⟨[], [], [], [], []⟩

/-- The 2020→2021 road growth record of `mWr`. -/
def recWr : RoadGrowthRecord :=
  (alistGet rWr.growth_rates (2020, 2021)).getD ⟨1, 1, 0, 0, 0, 0, 0⟩

/-- Two-year land-use input with a zero previous year. -/
def mWl : ByYear (List LandusePatch) := [(2020, []), (2021, [luW])]

/-- The land-use metrics computed for `mWl`. -/
def rWl : LanduseChangeMetrics :=
  (calculate_landuse_changes mWl).getD ⟨[], [], [], []⟩

/-- The 2020→2021 transitions of `mWl`. -/
def transWl : List (String × LanduseTransition) :=
  (alistGet rWl.transitions (2020, 2021)).getD []

/-- The transition record of the `"residential"` category of `mWl`. -/
def trWl : LanduseTransition :=
  (alistGet transWl "residential").getD ⟨0, 0, 0, 1⟩

/-- The building metrics computed for the all-empty input `mE`. -/
def rE9 : BuildingGrowthMetrics :=
  (calculate_building_growth mE).getD emptyBGM

/-- The 2020→2021 growth record of `mE`. -/
def recE9 : BuildingGrowthRecord :=
  (alistGet rE9.growth_rates (2020, 2021)).getD ⟨1, 1, 0, 0, 0, 0, 0⟩

/-- The sprawl result computed for the all-empty input `mE`. -/
def rSp9 : SprawlResult :=
  (analyze_urban_sprawl opsW mE none).getD ⟨[], [(0, 0)], [], []⟩

/-- The 2020→2021 growth-rate series pair of `mWh`. -/
def grWh : List ℚ × List ℚ :=
  (alistGet rWh.growth_rates (2020, 2021)).getD ([], [])

/-!
# Theorems

Shared lemmas first, then one theorem per claim with its witness or
counterexample.
-/

theorem alistGet_mem {κ α : Type} [DecidableEq κ] {l : List (κ × α)}
    {k : κ} {v : α} (h : alistGet l k = some v) : (k, v) ∈ l := by
  induction l with
  | nil => simp [alistGet] at h
  | cons hd tl ih =>
    obtain ⟨k0, v0⟩ := hd
    rw [alistGet] at h
    split at h
    · rename_i heq
      cases h
      subst heq
      exact List.mem_cons_self _ _
    · exact List.mem_cons_of_mem _ (ih h)

theorem getYear_eq_nil {α : Type} {m : ByYear (List α)}
    (h : ∀ y c, (y, c) ∈ m → c = []) (y : ℤ) : getYear m y = [] := by
  unfold getYear
  cases ha : alistGet m y with
  | none => rfl
  | some c => exact h y c (alistGet_mem ha)

theorem allBuildings_eq_nil {m : ByYear (List Building)}
    (h : ∀ y c, (y, c) ∈ m → c = []) : allBuildings m = [] := by
  unfold allBuildings
  induction m with
  | nil => rfl
  | cons hd tl ih =>
    rw [List.foldr_cons]
    rw [h hd.1 hd.2 (by simp), ih fun y c hm => h y c (List.mem_cons_of_mem _ hm)]
    rfl

/-- C10: every cross-year computation (building growth, road growth,
land-use changes, growth-direction vectors, hotspot detection, sprawl
analysis) returns the empty result (`none`, the `{}` dict) whenever the
per-year input mapping has fewer than two years, even when the single
year's collection is non-empty. -/
theorem single_year_returns_empty :
    (∀ m : ByYear (List Building), m.length < 2 →
      calculate_building_growth m = none) ∧
    (∀ m : ByYear (List Road), m.length < 2 →
      calculate_road_growth m = none) ∧
    (∀ m : ByYear (List LandusePatch), m.length < 2 →
      calculate_landuse_changes m = none) ∧
    (∀ (ops : GeoOps) (m : ByYear (List Building))
      (c : Option (ℚ × ℚ)), m.length < 2 →
      calculate_growth_direction_metrics ops m c = none) ∧
    (∀ (m : ByYear (List (ℚ × ℚ))) (g : ℚ) (b : Option BBox),
      m.length < 2 → detect_growth_hotspots m g b = none) ∧
    (∀ (ops : GeoOps) (m : ByYear (List Building)) (c : Option (ℚ × ℚ)),
      m.length < 2 → analyze_urban_sprawl ops m c = none) := by
  refine ⟨fun m h => ?_, fun m h => ?_, fun m h => ?_,
    fun ops m c h => ?_, fun m g b h => ?_, fun ops m c h => ?_⟩
  · unfold calculate_building_growth; rw [if_pos h]
  · unfold calculate_road_growth; rw [if_pos h]
  · unfold calculate_landuse_changes; rw [if_pos h]
  · unfold calculate_growth_direction_metrics; rw [if_pos h]
  · unfold detect_growth_hotspots; rw [if_pos h]
  · unfold analyze_urban_sprawl; rw [if_pos h]

/-- Witness for C10 at concrete single-year inputs with non-empty
collections. -/
theorem single_year_returns_empty_witness :
    calculate_building_growth mS = none ∧
    calculate_road_growth mSr = none ∧
    calculate_landuse_changes mSl = none ∧
    calculate_growth_direction_metrics opsW mS none = none ∧
    detect_growth_hotspots mSh 1 none = none ∧
    analyze_urban_sprawl opsW mS none = none :=
  ⟨single_year_returns_empty.1 mS (by decide),
   single_year_returns_empty.2.1 mSr (by decide),
   single_year_returns_empty.2.2.1 mSl (by decide),
   single_year_returns_empty.2.2.2.1 opsW mS none (by decide),
   single_year_returns_empty.2.2.2.2.1 mSh 1 none (by decide),
   single_year_returns_empty.2.2.2.2.2 opsW mS none (by decide)⟩

theorem foldr_append_eq_nil {α β : Type} {m : List (β × List α)}
    (h : ∀ y c, (y, c) ∈ m → c = []) :
    m.foldr (fun yc acc => yc.2 ++ acc) [] = [] := by
  induction m with
  | nil => rfl
  | cons hd tl ih =>
    rw [List.foldr_cons, h hd.1 hd.2 (by simp),
      ih fun y c hm => h y c (List.mem_cons_of_mem _ hm)]
    rfl

/-- C9: every embedded metric and spatial-analysis routine returns its
type-appropriate zero or empty structure on empty required input (the
routines are total functions here, so no exception can escape); in
particular, with empty collections for every requested year all per-year
metrics are 0/empty. -/
theorem empty_input_zero_results :
    (∀ (m : ByYear (List Building)) (r : BuildingGrowthMetrics),
      (∀ y c, (y, c) ∈ m → c = []) → calculate_building_growth m = some r →
      (∀ yc ∈ r.building_counts, yc.2 = 0) ∧
      (∀ yc ∈ r.total_area_m2, yc.2 = 0) ∧
      (∀ yc ∈ r.average_building_size_m2, yc.2 = 0) ∧
      (∀ yc ∈ r.building_types, yc.2 = []) ∧
      (∀ pr ∈ r.growth_rates,
        pr.2.count_growth_percent = 0 ∧ pr.2.area_growth_percent = 0 ∧
        pr.2.new_buildings = 0 ∧ pr.2.new_area_m2 = 0 ∧
        pr.2.annual_count_growth_percent = 0 ∧
        pr.2.annual_area_growth_percent = 0)) ∧
    (∀ (m : ByYear (List Road)) (r : RoadGrowthMetrics),
      (∀ y c, (y, c) ∈ m → c = []) → calculate_road_growth m = some r →
      (∀ yc ∈ r.road_counts, yc.2 = 0) ∧
      (∀ yc ∈ r.total_length_km, yc.2 = 0) ∧
      (∀ yc ∈ r.road_types, yc.2 = []) ∧
      (∀ pr ∈ r.growth_rates,
        pr.2.count_growth_percent = 0 ∧ pr.2.length_growth_percent = 0 ∧
        pr.2.new_roads = 0 ∧ pr.2.new_length_km = 0 ∧
        pr.2.annual_count_growth_percent = 0 ∧
        pr.2.annual_length_growth_percent = 0)) ∧
    (∀ (m : ByYear (List LandusePatch)) (r : LanduseChangeMetrics),
      (∀ y c, (y, c) ∈ m → c = []) → calculate_landuse_changes m = some r →
      (∀ yc ∈ r.landuse_areas_m2, yc.2 = []) ∧
      (∀ yc ∈ r.landuse_percentages, yc.2 = []) ∧
      (∀ pr ∈ r.transitions, pr.2 = [])) ∧
    (∀ a : ℚ, calculate_density_metrics [] [] a = ⟨0, 0, 0, 0, 0⟩) ∧
    (∀ ops : GeoOps, calculate_compactness_metrics ops [] = ⟨0, 0, 0⟩) ∧
    (∀ ops : GeoOps, calculate_fragmentation_metrics ops [] = []) ∧
    (∀ ops : GeoOps, analyze_connectivity ops [] [] = none) ∧
    (∀ (ops : GeoOps) (e : ℚ) (ms : ℕ),
      detect_building_clusters ops [] e ms = []) ∧
    (∀ (ops : GeoOps) (roads : List Road) (mx : ℚ),
      analyze_accessibility ops [] roads mx = []) ∧
    (∀ bw : ℚ, calculate_distance_bands [] bw = []) ∧
    (∀ (ops : GeoOps) (m : ByYear (List Building)) (r : SprawlResult),
      (∀ y c, (y, c) ∈ m → c = []) → analyze_urban_sprawl ops m none = some r →
      r.urban_extent = [] ∧ r.sprawl_indices = [] ∧ r.distance_bands = []) ∧
    (∀ (m : ByYear (List (ℚ × ℚ))) (g : ℚ),
      (∀ y c, (y, c) ∈ m → c = []) →
      detect_growth_hotspots m g none = none) := by
  refine ⟨?_, ?_, ?_, fun a => rfl, fun ops => rfl, fun ops => rfl,
    fun ops => rfl, fun ops e ms => rfl, fun ops roads mx => rfl,
    fun bw => rfl, ?_, ?_⟩
  · intro m r hall hr
    unfold calculate_building_growth at hr
    split at hr
    · simp at hr
    · injection hr with hr
      subst hr
      refine ⟨?_, ?_, ?_, ?_, ?_⟩ <;> intro yc hyc <;>
        obtain ⟨y, hy, rfl⟩ := List.mem_map.1 hyc
      · simp [buildingCount, getYear_eq_nil hall]
      · simp [buildingTotalArea, getYear_eq_nil hall]
      · simp [buildingAvgArea, getYear_eq_nil hall]
      · simp [buildingTypes, valueCounts, getYear_eq_nil hall]
      · simp [buildingGrowthRecord, growthPercent, buildingCount,
          buildingTotalArea, getYear_eq_nil hall]
  · intro m r hall hr
    unfold calculate_road_growth at hr
    split at hr
    · simp at hr
    · injection hr with hr
      subst hr
      refine ⟨?_, ?_, ?_, ?_⟩ <;> intro yc hyc <;>
        obtain ⟨y, hy, rfl⟩ := List.mem_map.1 hyc
      · simp [roadCount, getYear_eq_nil hall]
      · simp [roadTotalLengthKm, getYear_eq_nil hall]
      · simp [roadTypes, valueCounts, getYear_eq_nil hall]
      · simp [roadGrowthRecord, growthPercent, roadCount,
          roadTotalLengthKm, getYear_eq_nil hall]
  · intro m r hall hr
    unfold calculate_landuse_changes at hr
    split at hr
    · simp at hr
    · injection hr with hr
      subst hr
      refine ⟨?_, ?_, ?_⟩ <;> intro yc hyc <;>
        obtain ⟨y, hy, rfl⟩ := List.mem_map.1 hyc
      · simp [landuseAreas, landuseAreasByType, getYear_eq_nil hall]
      · simp [landusePercentages, landuseAreas, landuseAreasByType,
          getYear_eq_nil hall]
      · simp [landuseTransitions, landuseAreas, landuseAreasByType,
          getYear_eq_nil hall]
  · intro ops m r hall hr
    unfold analyze_urban_sprawl at hr
    split at hr
    · simp at hr
    · rw [allBuildings_eq_nil hall] at hr
      simp only [reduceIte] at hr
      injection hr with hr
      subst hr
      exact ⟨rfl, rfl, rfl⟩
  · intro m g hall
    unfold detect_growth_hotspots
    split
    · rfl
    · have hd : derivedBbox m = none := by
        unfold derivedBbox
        rw [foldr_append_eq_nil hall]
        rfl
      rw [show (none : Option BBox).orElse (fun _ => derivedBbox m) =
        derivedBbox m from rfl, hd]

theorem mE_all_nil : ∀ y c, (y, c) ∈ mE → c = [] := by
  intro y c h
  simp only [mE, List.mem_cons, List.mem_singleton, Prod.mk.injEq,
    List.not_mem_nil, or_false] at h
  rcases h with ⟨_, h⟩ | ⟨_, h⟩ <;> exact h

/-- Witness for C9: the all-empty two-year inputs produce zero growth
records and empty spatial results, and the hypothesis-free routines give
their zero structures. -/
theorem empty_input_zero_results_witness :
    recE9.count_growth_percent = 0 ∧
    calculate_density_metrics [] [] 5 = ⟨0, 0, 0, 0, 0⟩ ∧
    calculate_compactness_metrics opsW [] = ⟨0, 0, 0⟩ ∧
    calculate_fragmentation_metrics opsW [] = [] ∧
    analyze_connectivity opsW [] [] = none ∧
    detect_building_clusters opsW [] 100 5 = [] ∧
    analyze_accessibility opsW [] [rdW] 500 = [] ∧
    calculate_distance_bands [] 2 = [] ∧
    rSp9.sprawl_indices = [] ∧
    detect_growth_hotspots mWh 1 none = none := by
  refine ⟨?_, empty_input_zero_results.2.2.2.1 5,
    empty_input_zero_results.2.2.2.2.1 opsW,
    empty_input_zero_results.2.2.2.2.2.1 opsW,
    empty_input_zero_results.2.2.2.2.2.2.1 opsW,
    empty_input_zero_results.2.2.2.2.2.2.2.1 opsW 100 5,
    empty_input_zero_results.2.2.2.2.2.2.2.2.1 opsW [rdW] 500,
    empty_input_zero_results.2.2.2.2.2.2.2.2.2.1 2, ?_, ?_⟩
  · exact ((empty_input_zero_results.1 mE rE9 mE_all_nil rfl).2.2.2.2
      ((2020, 2021), recE9) (List.Mem.head _)).1
  · exact (empty_input_zero_results.2.2.2.2.2.2.2.2.2.2.1 opsW mE rSp9
      mE_all_nil rfl).2.1
  · exact empty_input_zero_results.2.2.2.2.2.2.2.2.2.2.2 mWh 1
      (by intro y c h
          simp only [mWh, List.mem_cons, List.mem_singleton, Prod.mk.injEq,
            List.not_mem_nil, or_false] at h
          rcases h with ⟨_, h⟩ | ⟨_, h⟩ <;> exact h)

theorem getD_replicate_zero : ∀ (n i : ℕ),
    (List.replicate n (0 : ℚ)).getD i 0 = 0
  | 0, _ => by simp
  | n + 1, 0 => by rw [List.replicate_succ, List.getD_cons_zero]
  | n + 1, i + 1 => by
    rw [List.replicate_succ, List.getD_cons_succ]
    exact getD_replicate_zero n i

theorem yearDensities_nil (grid : List GridCell) (g : ℚ) :
    yearDensities grid [] g = List.replicate grid.length 0 := by
  unfold yearDensities cellDensity
  simp only [List.filter_nil, List.length_nil, Nat.cast_zero, zero_div]
  exact List.map_const' grid 0

theorem zipWith_rel_getD_zero :
    ∀ (p c : List ℚ) (i : ℕ), p.getD i 0 = 0 →
      (List.zipWith (fun pr cu => hotspotRelGrowth pr cu) p c).getD i 0 = 0
  | [], _, _, _ => by simp
  | _ :: _, [], _, _ => by simp
  | x :: xs, y :: ys, 0, h => by
    simp only [List.getD_cons_zero] at h
    subst h
    simp [hotspotRelGrowth]
  | x :: xs, y :: ys, i + 1, h => by
    simp only [List.getD_cons_succ] at h ⊢
    rw [List.zipWith_cons_cons]
    exact zipWith_rel_getD_zero xs ys i h

/-- C1: in every growth computation (building growth, road growth,
land-use transitions, hotspot relative growth), whenever the previous-year
value (count, area, length, or per-cell density) is zero, the
corresponding percent-growth field of the output equals exactly 0 — and
being a total function into ℚ, it is never infinite or NaN. -/
theorem growth_percent_zero_on_zero_prev :
    (∀ (m : ByYear (List Building)) (r : BuildingGrowthMetrics)
      (pc : ℤ × ℤ) (rec : BuildingGrowthRecord),
      calculate_building_growth m = some r → (pc, rec) ∈ r.growth_rates →
      (buildingCount m pc.1 = 0 → rec.count_growth_percent = 0) ∧
      (buildingTotalArea m pc.1 = 0 → rec.area_growth_percent = 0)) ∧
    (∀ (m : ByYear (List Road)) (r : RoadGrowthMetrics)
      (pc : ℤ × ℤ) (rec : RoadGrowthRecord),
      calculate_road_growth m = some r → (pc, rec) ∈ r.growth_rates →
      (roadCount m pc.1 = 0 → rec.count_growth_percent = 0) ∧
      (roadTotalLengthKm m pc.1 = 0 → rec.length_growth_percent = 0)) ∧
    (∀ (m : ByYear (List LandusePatch)) (r : LanduseChangeMetrics)
      (pc : ℤ × ℤ) (ts : List (String × LanduseTransition))
      (t : String) (tr : LanduseTransition),
      calculate_landuse_changes m = some r → (pc, ts) ∈ r.transitions →
      (t, tr) ∈ ts → areaOfType (landuseAreas m pc.1) t = 0 →
      tr.percent_change = 0) ∧
    (∀ (m : ByYear (List (ℚ × ℚ))) (g : ℚ) (bb : Option BBox)
      (r : HotspotResult) (pc : ℤ × ℤ) (gr : List ℚ × List ℚ) (i : ℕ),
      detect_growth_hotspots m g bb = some r → (pc, gr) ∈ r.growth_rates →
      (yearDensities r.grid (getYear m pc.1) g).getD i 0 = 0 →
      gr.2.getD i 0 = 0) := by
  refine ⟨?_, ?_, ?_, ?_⟩
  · intro m r pc rec hr hmem
    unfold calculate_building_growth at hr
    split at hr
    · simp at hr
    · injection hr with hr
      subst hr
      obtain ⟨pc', hpc', heq⟩ := List.mem_map.1 hmem
      cases heq
      constructor
      · intro h0
        simp [buildingGrowthRecord, growthPercent, h0]
      · intro h0
        simp [buildingGrowthRecord, growthPercent, h0]
  · intro m r pc rec hr hmem
    unfold calculate_road_growth at hr
    split at hr
    · simp at hr
    · injection hr with hr
      subst hr
      obtain ⟨pc', hpc', heq⟩ := List.mem_map.1 hmem
      cases heq
      constructor
      · intro h0
        simp [roadGrowthRecord, growthPercent, h0]
      · intro h0
        simp [roadGrowthRecord, growthPercent, h0]
  · intro m r pc ts t tr hr hmem hts h0
    unfold calculate_landuse_changes at hr
    split at hr
    · simp at hr
    · injection hr with hr
      subst hr
      obtain ⟨pc', hpc', heq⟩ := List.mem_map.1 hmem
      cases heq
      unfold landuseTransitions at hts
      obtain ⟨t', ht', heq'⟩ := List.mem_map.1 hts
      cases heq'
      simp [h0]
  · intro m g bb r pc gr i hr hmem h0
    unfold detect_growth_hotspots at hr
    split at hr
    · simp at hr
    · split at hr
      · simp at hr
      · injection hr with hr
        subst hr
        obtain ⟨pc', hpc', heq⟩ := List.mem_map.1 hmem
        cases heq
        exact zipWith_rel_getD_zero _ _ i h0

/-- Witness for C1: inputs whose 2020 collection is empty (zero previous
count, area, length, per-type area, per-cell density) give growth-percent
fields exactly 0 in all four computations. -/
theorem growth_percent_zero_on_zero_prev_witness :
    recW1.count_growth_percent = 0 ∧ recW1.area_growth_percent = 0 ∧
    recWr.count_growth_percent = 0 ∧ recWr.length_growth_percent = 0 ∧
    trWl.percent_change = 0 ∧ grWh.2.getD 0 0 = 0 := by
  have h1 := growth_percent_zero_on_zero_prev.1 mW1 rW1 (2020, 2021) recW1
    rfl (List.Mem.head _)
  have h2 := growth_percent_zero_on_zero_prev.2.1 mWr rWr (2020, 2021) recWr
    rfl (List.Mem.head _)
  have h3 := growth_percent_zero_on_zero_prev.2.2.1 mWl rWl (2020, 2021)
    transWl "residential" trWl rfl (List.Mem.head _) (List.Mem.head _) rfl
  have h4 := growth_percent_zero_on_zero_prev.2.2.2 mWh 1 (some bboxW) rWh
    (2020, 2021) grWh 0 rfl (List.Mem.head _)
    (by show (yearDensities rWh.grid [] 1).getD 0 0 = 0
        rw [yearDensities_nil]
        exact getD_replicate_zero _ _)
  exact ⟨h1.1 rfl, h1.2 rfl, h2.1 rfl,
    h2.2 (by show (0 : ℚ) / 1000 = 0; exact zero_div 1000), h3, h4⟩

theorem sortedYears_sorted_lt {α : Type} (m : ByYear α) :
    List.Sorted (· < ·) (sortedYears m) := by
  have hs : List.Sorted (· ≤ ·) (sortedYears m) :=
    List.sorted_insertionSort _ _
  have hn : (sortedYears m).Nodup :=
    (List.perm_insertionSort _ _).nodup_iff.2 (List.nodup_dedup _)
  exact hs.lt_of_le hn

/-- C6: building-growth records are emitted exactly for the strictly
consecutive pairs of the sorted year list, with
`count_growth_percent = (curr-prev)/prev*100` when `prev > 0`,
`new_buildings = curr - prev`, and annual rates equal to the growth
percent divided by the elapsed years. -/
theorem building_growth_consecutive_formula :
    ∀ (m : ByYear (List Building)) (r : BuildingGrowthMetrics),
      calculate_building_growth m = some r →
      r.years = sortedYears m ∧
      List.Sorted (· < ·) r.years ∧
      r.growth_rates.map Prod.fst = consecutivePairs r.years ∧
      ∀ (pc : ℤ × ℤ) (rec : BuildingGrowthRecord),
        (pc, rec) ∈ r.growth_rates →
        (rec.count_growth_percent =
          if 0 < buildingCount m pc.1 then
            ((buildingCount m pc.2 : ℚ) - (buildingCount m pc.1 : ℚ)) /
              (buildingCount m pc.1 : ℚ) * 100
          else 0) ∧
        rec.new_buildings =
          (buildingCount m pc.2 : ℤ) - (buildingCount m pc.1 : ℤ) ∧
        rec.years_elapsed = pc.2 - pc.1 ∧
        rec.annual_count_growth_percent =
          rec.count_growth_percent / ((pc.2 : ℚ) - (pc.1 : ℚ)) ∧
        rec.annual_area_growth_percent =
          rec.area_growth_percent / ((pc.2 : ℚ) - (pc.1 : ℚ)) := by
  intro m r hr
  unfold calculate_building_growth at hr
  split at hr
  · simp at hr
  · injection hr with hr
    subst hr
    refine ⟨rfl, sortedYears_sorted_lt m, ?_, ?_⟩
    · rw [List.map_map]
      exact List.map_id _
    · intro pc rec hmem
      obtain ⟨pc', hpc', heq⟩ := List.mem_map.1 hmem
      cases heq
      refine ⟨?_, rfl, rfl, rfl, rfl⟩
      simp [buildingGrowthRecord, growthPercent, gt_iff_lt, Nat.cast_pos]

/-- Witness for C6, end-to-end scenario 2: building counts 100 then 150
give `count_growth_percent = 50` and `new_buildings = 50`. -/
theorem building_growth_consecutive_formula_witness :
    recW6.count_growth_percent = 50 ∧ recW6.new_buildings = 50 := by
  have h := building_growth_consecutive_formula mW6 rW6 rfl
  have hm := h.2.2.2 (2020, 2021) recW6 (List.Mem.head _)
  constructor
  · rw [hm.1]
    have hc1 : buildingCount mW6 2020 = 100 := rfl
    have hc2 : buildingCount mW6 2021 = 150 := rfl
    rw [show ((2020 : ℤ), (2021 : ℤ)).1 = 2020 from rfl,
      show ((2020 : ℤ), (2021 : ℤ)).2 = 2021 from rfl, hc1, hc2]
    norm_num
  · rw [hm.2.1]
    rfl

theorem alistGet_filter_eq_none {κ α : Type} [DecidableEq κ]
    {l : List (κ × α)} {P : κ × α → Bool} {k : κ}
    (h : ∀ kv ∈ l, kv.1 = k → P kv = false) :
    alistGet (l.filter P) k = none := by
  induction l with
  | nil => rfl
  | cons hd tl ih =>
    rw [List.filter_cons]
    split
    · rename_i hP
      obtain ⟨k0, v0⟩ := hd
      rw [alistGet]
      split
      · rename_i heq
        rw [h (k0, v0) (List.mem_cons_self _ _) heq] at hP
        cases hP
      · exact ih fun kv hm => h kv (List.mem_cons_of_mem _ hm)
    · exact ih fun kv hm => h kv (List.mem_cons_of_mem _ hm)

/-- C3 (amended): an entry whose age is at least the TTL is invalid
(validity requires age strictly below the TTL), and `get_osm_data` on it
returns a miss while LEAVING the stale file in place — `get` only deletes
entries whose load fails; expired entries are removed by
`cleanup_expired_cache`. -/
theorem cache_stale_entry_miss :
    (∀ {Data : Type} (st : CacheState Data) (now ttl : ℚ)
      (p : String × String),
      _is_cache_valid st now ttl p = true ↔
        ∃ f, st.find p = some f ∧ now - f.2 < ttl) ∧
    (∀ {Data : Type} (md5 : String → String) (st : CacheState Data)
      (now ttl : ℚ) (bbox : BBox) (features : List String)
      (df : Option String) (f : CacheContent Data × ℚ),
      st.find (cachePath "osm_data" (osmCacheKey md5 bbox features df)
        "pkl") = some f →
      ttl ≤ now - f.2 →
      get_osm_data md5 st now ttl bbox features df = (none, st)) ∧
    (∀ {Data : Type} (st : CacheState Data) (now ttl : ℚ)
      (p : String × String) (f : CacheContent Data × ℚ),
      st.find p = some f → p.1 ∈ cacheNamespaces → ttl ≤ now - f.2 →
      (cleanup_expired_cache st now ttl).find p = none) := by
  refine ⟨?_, ?_, ?_⟩
  · intro Data st now ttl p
    unfold _is_cache_valid
    cases hf : st.find p with
    | none => simp
    | some f => simp [hf]
  · intro Data md5 st now ttl bbox features df f hf httl
    have hv : _is_cache_valid st now ttl
        (cachePath "osm_data" (osmCacheKey md5 bbox features df) "pkl") =
        false := by
      unfold _is_cache_valid
      rw [hf]
      simp [not_lt.2 httl]
    unfold get_osm_data
    simp only [hv, Bool.false_eq_true, if_false]
  · intro Data st now ttl p f hf hns httl
    have hv : _is_cache_valid st now ttl p = false := by
      unfold _is_cache_valid
      rw [hf]
      simp [not_lt.2 httl]
    unfold cleanup_expired_cache CacheState.find
    exact alistGet_filter_eq_none fun kv hm hk => by
      subst hk
      simp [hns, hv]

/-- Counterexample to C3 as stated: with TTL 24 h and an entry 25 h old,
`get_osm_data` returns a miss but does NOT remove the stale entry file —
the file is still present afterwards, contradicting "removes the stale
entry file". -/
theorem cache_stale_entry_not_removed :
    (get_osm_data id stStale 25 24 (0, 0, 1, 1) ["building"] none).1 =
      none ∧
    (get_osm_data id stStale 25 24 (0, 0, 1, 1) ["building"]
      none).2.find stalePath = some (CacheContent.blob 7, 0) := by
  have hv : _is_cache_valid stStale 25 24
      (cachePath "osm_data" (osmCacheKey id (0, 0, 1, 1) ["building"] none)
        "pkl") = false := by
    unfold _is_cache_valid
    rw [show CacheState.find stStale
      (cachePath "osm_data" (osmCacheKey id (0, 0, 1, 1) ["building"] none)
        "pkl") = some (CacheContent.blob 7, 0) from rfl]
    rw [decide_eq_false_iff_not]
    norm_num
  have hget : get_osm_data id stStale 25 24 (0, 0, 1, 1) ["building"] none =
      (none, stStale) := by
    unfold get_osm_data
    simp only [hv, Bool.false_eq_true, if_false]
  rw [hget]
  exact ⟨rfl, rfl⟩

/-- Witness for the amended C3 at the concrete stale state: miss, state
unchanged, and `cleanup_expired_cache` does remove the entry. -/
theorem cache_stale_entry_miss_witness :
    get_osm_data id stStale 25 24 (0, 0, 1, 1) ["building"] none =
      (none, stStale) ∧
    (cleanup_expired_cache stStale 25 24).find stalePath = none :=
  ⟨cache_stale_entry_miss.2.1 id stStale 25 24 (0, 0, 1, 1) ["building"]
      none (CacheContent.blob 7, 0) rfl (by norm_num),
   cache_stale_entry_miss.2.2 stStale 25 24 stalePath
      (CacheContent.blob 7, 0) rfl (by decide) (by norm_num)⟩

theorem insertionSort_eq_of_perm {l l' : List String} (h : l.Perm l') :
    List.insertionSort (· ≤ ·) l = List.insertionSort (· ≤ ·) l' :=
  List.eq_of_perm_of_sorted
    ((List.perm_insertionSort _ l).trans
      (h.trans (List.perm_insertionSort _ l').symm))
    (List.sorted_insertionSort _ _) (List.sorted_insertionSort _ _)

theorem alistGet_filter_ne {κ α : Type} [DecidableEq κ]
    (l : List (κ × α)) {p q : κ} (h : q ≠ p) :
    alistGet (l.filter fun kv => kv.1 ≠ p) q = alistGet l q := by
  induction l with
  | nil => rfl
  | cons hd tl ih =>
    rw [List.filter_cons]
    by_cases hk : hd.1 = q
    · have : (decide (hd.1 ≠ p)) = true := by
        simp only [decide_eq_true_iff]
        rw [hk]
        exact h
      rw [this]
      simp only [if_true]
      obtain ⟨k0, v0⟩ := hd
      rw [alistGet, alistGet, if_pos hk, if_pos hk]
    · obtain ⟨k0, v0⟩ := hd
      split
      · rw [alistGet, alistGet, if_neg hk, if_neg hk]
        exact ih
      · rw [alistGet, if_neg hk]
        exact ih

theorem find_write_self {Data : Type} (st : CacheState Data)
    (p : String × String) (c : CacheContent Data) (t : ℚ) :
    (st.write p c t).find p = some (c, t) := by
  unfold CacheState.write CacheState.find
  rw [alistGet, if_pos rfl]

theorem find_write_ne {Data : Type} (st : CacheState Data)
    {p q : String × String} (h : q ≠ p) (c : CacheContent Data) (t : ℚ) :
    (st.write p c t).find q = st.find q := by
  unfold CacheState.write CacheState.find
  rw [alistGet, if_neg (fun he => h he.symm)]
  exact alistGet_filter_ne _ h

/-- C8: saving via `save_osm_data` and immediately loading via
`get_osm_data` with the same bbox, the same feature list in any order
(the key is derived from the sorted feature list), and the same date
filter returns exactly the saved data, for every digest function and
every positive TTL. -/
theorem cache_roundtrip :
    ∀ {Data : Type} (md5 : String → String) (dataLen : Data → ℕ)
      (st : CacheState Data) (now ttl : ℚ) (data : Data) (bbox : BBox)
      (features features' : List String) (df : Option String),
      0 < ttl → features.Perm features' →
      (get_osm_data md5
        (save_osm_data md5 dataLen st now data bbox features df)
        now ttl bbox features' df).1 = some data := by
  intro Data md5 dataLen st now ttl data bbox features features' df httl hp
  have hkey : osmCacheKey md5 bbox features' df =
      osmCacheKey md5 bbox features df := by
    unfold osmCacheKey
    rw [insertionSort_eq_of_perm hp]
  have hne : (cachePath "osm_data" (osmCacheKey md5 bbox features df) "pkl")
      ≠ (cachePath "metadata" (osmCacheKey md5 bbox features df) "json") := by
    intro h
    have h1 : ("osm_data" : String) = "metadata" := congrArg Prod.fst h
    exact absurd h1 (by decide)
  have hfind : (save_osm_data md5 dataLen st now data bbox features df).find
      (cachePath "osm_data" (osmCacheKey md5 bbox features df) "pkl") =
      some (CacheContent.blob data, now) := by
    unfold save_osm_data
    rw [find_write_ne _ hne, find_write_self]
  have hv : _is_cache_valid
      (save_osm_data md5 dataLen st now data bbox features df) now ttl
      (cachePath "osm_data" (osmCacheKey md5 bbox features df) "pkl") =
      true := by
    unfold _is_cache_valid
    rw [hfind]
    simp only [sub_self]
    exact decide_eq_true httl
  unfold get_osm_data
  rw [hkey]
  simp only [hv, if_true]
  rw [hfind]

/-- Witness for C8: a concrete round-trip through an empty cache returns
the saved value. -/
theorem cache_roundtrip_witness :
    (get_osm_data id
      (save_osm_data id (fun _ => 1) ⟨[]⟩ 0 (7 : ℚ) (0, 0, 1, 1)
        ["building"] none)
      0 24 (0, 0, 1, 1) ["building"] none).1 = some 7 :=
  cache_roundtrip id (fun _ => 1) ⟨[]⟩ 0 24 7 (0, 0, 1, 1) ["building"]
    ["building"] none (by norm_num) (List.Perm.refl _)

theorem zip_sub_all_zero :
    ∀ (p c : List ℚ), p.length = c.length →
      (∀ x ∈ List.zipWith (fun cu pr => cu - pr) c p, x = 0) →
      List.zipWith (fun cu pr => cu - pr) c p =
        List.replicate p.length 0 ∧
      List.zipWith (fun pr cu => hotspotRelGrowth pr cu) p c =
        List.replicate p.length 0
  | [], [], _, _ => ⟨rfl, rfl⟩
  | x :: xs, y :: ys, hlen, h => by
    have hmem : (y - x) ∈ List.zipWith (fun cu pr => cu - pr)
        (y :: ys) (x :: xs) := by
      rw [List.zipWith_cons_cons]
      exact List.mem_cons_self _ _
    have hx : y - x = 0 := h _ hmem
    have hyx : y = x := by linarith
    have ih := zip_sub_all_zero xs ys (by simpa using hlen)
      (fun z hz => h z (by
        rw [List.zipWith_cons_cons]
        exact List.mem_cons_of_mem _ hz))
    subst hyx
    refine ⟨?_, ?_⟩
    · rw [List.zipWith_cons_cons, List.length_cons, List.replicate_succ,
        ih.1, sub_self]
    · rw [List.zipWith_cons_cons, List.length_cons, List.replicate_succ,
        ih.2]
      congr 1
      unfold hotspotRelGrowth
      split
      · rfl
      · rw [sub_self, zero_div, zero_mul]

theorem sorted_replicate_zero (n : ℕ) :
    List.Sorted (· ≤ ·) (List.replicate n (0 : ℚ)) := by
  induction n with
  | zero => exact List.sorted_nil
  | succ k ih =>
    rw [List.replicate_succ, List.sorted_cons]
    exact ⟨fun b hb => by rw [List.eq_of_mem_replicate hb], ih⟩

theorem insertionSort_replicate_zero (n : ℕ) :
    List.insertionSort (· ≤ ·) (List.replicate n (0 : ℚ)) =
      List.replicate n 0 :=
  List.eq_of_perm_of_sorted (List.perm_insertionSort _ _)
    (List.sorted_insertionSort _ _) (sorted_replicate_zero n)

theorem seriesQuantile_replicate_zero (n : ℕ) (q : ℚ) :
    seriesQuantile (List.replicate n 0) q = 0 := by
  simp only [seriesQuantile]
  rw [insertionSort_replicate_zero]
  split
  · rfl
  · rw [getD_replicate_zero, getD_replicate_zero]
    ring

theorem hotspot_rows_of_replicate_zero :
    ∀ (grid : List GridCell),
      ((grid.zip ((List.replicate grid.length (0 : ℚ)).zip
          (List.replicate grid.length (0 : ℚ)))).filter fun cr =>
        decide ((0 : ℚ) ≤ cr.2.1)).map
          (fun cr => HotspotCell.mk cr.1 cr.2.1 cr.2.2) =
      grid.map fun cell => ⟨cell, 0, 0⟩
  | [] => rfl
  | cell :: g => by
    simp only [List.length_cons, List.replicate_succ, List.zip_cons_cons,
      List.filter_cons, List.map_cons]
    rw [if_pos (decide_eq_true (le_refl (0 : ℚ)))]
    rw [List.map_cons]
    exact congrArg _ (hotspot_rows_of_replicate_zero g)

theorem periodHotspots_all_of_zero (m : ByYear (List (ℚ × ℚ)))
    (grid : List GridCell) (g : ℚ) (p c : ℤ)
    (h : ∀ x ∈ periodGrowthAbs m grid g p c, x = 0) :
    periodHotspots m grid g p c = grid.map fun cell => ⟨cell, 0, 0⟩ := by
  have hlen : (yearDensities grid (getYear m p) g).length =
      (yearDensities grid (getYear m c) g).length := by
    unfold yearDensities
    rw [List.length_map, List.length_map]
  have hz := zip_sub_all_zero _ _ hlen h
  have hlg : (yearDensities grid (getYear m p) g).length = grid.length := by
    unfold yearDensities
    rw [List.length_map]
  have habs : periodGrowthAbs m grid g p c = List.replicate grid.length 0 := by
    unfold periodGrowthAbs
    rw [hz.1, hlg]
  have hrel : periodGrowthRel m grid g p c = List.replicate grid.length 0 := by
    unfold periodGrowthRel
    rw [hz.2, hlg]
  simp only [periodHotspots]
  rw [habs, hrel, seriesQuantile_replicate_zero]
  exact hotspot_rows_of_replicate_zero grid

/-- C2 (amended/corrected): for a period whose per-cell absolute growth is
zero for every grid cell, the 80th-percentile threshold is 0 and the
inclusive `>=` rule admits every cell — the hotspot set equals ALL grid
cells (each carrying zero absolute and relative growth), not the empty
set. -/
theorem uniform_zero_growth_all_cells_hotspots :
    ∀ (m : ByYear (List (ℚ × ℚ))) (g : ℚ) (bb : Option BBox)
      (r : HotspotResult) (p c : ℤ),
      detect_growth_hotspots m g bb = some r →
      (p, c) ∈ consecutivePairs (sortedYears m) →
      (∀ x ∈ periodGrowthAbs m r.grid g p c, x = 0) →
      ((p, c), r.grid.map fun cell => ⟨cell, 0, 0⟩) ∈ r.hotspots := by
  intro m g bb r p c hr hpc hz
  unfold detect_growth_hotspots at hr
  split at hr
  · simp at hr
  · split at hr
    · simp at hr
    · injection hr with hr
      subst hr
      exact List.mem_map.2 ⟨(p, c), hpc,
        by rw [periodHotspots_all_of_zero _ _ _ _ _ hz]⟩

theorem zipWith_sub_replicate_zero : ∀ n : ℕ,
    List.zipWith (fun cu pr => cu - pr) (List.replicate n (0 : ℚ))
      (List.replicate n 0) = List.replicate n 0
  | 0 => rfl
  | n + 1 => by
    rw [List.replicate_succ, List.zipWith_cons_cons, sub_zero]
    exact congrArg _ (zipWith_sub_replicate_zero n)

theorem mWh_abs_zero (grid : List GridCell) (g : ℚ) (p c : ℤ) :
    ∀ x ∈ periodGrowthAbs mWh grid g p c, x = 0 := by
  have hnil : ∀ y c0, (y, c0) ∈ mWh → c0 = [] := by
    intro y c0 h
    simp only [mWh, List.mem_cons, List.mem_singleton, Prod.mk.injEq,
      List.not_mem_nil, or_false] at h
    rcases h with ⟨_, h⟩ | ⟨_, h⟩ <;> exact h
  unfold periodGrowthAbs
  rw [getYear_eq_nil hnil, getYear_eq_nil hnil, yearDensities_nil,
    zipWith_sub_replicate_zero]
  intro x hx
  exact List.eq_of_mem_replicate hx

theorem arangeLenW :
    arangeLen 0 (1/100 + 1 / KM_PER_DEG) (1 / KM_PER_DEG) = 3 := by
  unfold arangeLen KM_PER_DEG
  rw [show ((1/100 + 1 / (11132/100 : ℚ)) - 0) / (1 / (11132/100 : ℚ)) =
    5283/2500 by norm_num]
  rw [show ((⌈(5283/2500 : ℚ)⌉ : ℤ)) = 3 by
    rw [Int.ceil_eq_iff]
    constructor <;> norm_num]
  rfl

theorem gridW_length : (create_analysis_grid bboxW 1).length = 4 := by
  simp only [create_analysis_grid, bboxW]
  rw [arangeLenW]
  rw [show (3 - 1 : ℕ) = 2 from rfl, show List.range 2 = [0, 1] from rfl]
  simp [List.flatMap_cons, List.flatMap_nil]

/-- Counterexample to C2 as stated: two years of empty collections over a
2×2-cell bbox give uniform zero growth, yet the hotspot set for the
period 2020→2021 is the full 4-cell grid, not the empty set. -/
theorem hotspots_nonempty_on_uniform_zero_growth :
    hotspotsWh ≠ [] ∧ hotspotsWh.length = 4 := by
  have heq : hotspotsWh =
      periodHotspots mWh (create_analysis_grid bboxW 1) 1 2020 2021 := rfl
  rw [heq, periodHotspots_all_of_zero _ _ _ _ _ (mWh_abs_zero _ _ _ _)]
  constructor
  · intro h
    have hlen := congrArg List.length h
    rw [List.length_map, gridW_length] at hlen
    simp at hlen
  · rw [List.length_map, gridW_length]

/-- Witness for the amended C2 at the concrete uniform-zero-growth input:
the 2020→2021 hotspot entry is the full grid with zero growth values. -/
theorem uniform_zero_growth_all_cells_hotspots_witness :
    (((2020 : ℤ), (2021 : ℤ)),
      rWh.grid.map fun cell => HotspotCell.mk cell 0 0) ∈ rWh.hotspots :=
  uniform_zero_growth_all_cells_hotspots mWh 1 (some bboxW) rWh 2020 2021
    rfl (List.Mem.head _) (mWh_abs_zero _ _ _ _)

theorem ceilSqrtNat_spec (q : ℚ) (hq : 0 ≤ q) :
    q ≤ (ceilSqrtNat q : ℚ) ^ 2 ∧
    ∀ k : ℕ, k < ceilSqrtNat q → (k : ℚ) ^ 2 < q := by
  have hceil0 : (0 : ℤ) ≤ ⌈q⌉ := Int.ceil_nonneg hq
  have hts : ((⌈q⌉.toNat : ℕ) : ℚ) = ((⌈q⌉ : ℤ) : ℚ) := by
    exact_mod_cast Int.toNat_of_nonneg hceil0
  simp only [ceilSqrtNat]
  split
  · rename_i hle
    refine ⟨hle, fun k hk => ?_⟩
    by_contra hcon
    push_neg at hcon
    have h2 : ⌈q⌉.toNat ≤ k ^ 2 := by
      have hceil_le : ⌈q⌉ ≤ ((k ^ 2 : ℕ) : ℤ) :=
        Int.ceil_le.2 (by push_cast; exact hcon)
      omega
    have h3 : Nat.sqrt ⌈q⌉.toNat ≤ k := by
      calc Nat.sqrt ⌈q⌉.toNat ≤ Nat.sqrt (k ^ 2) := Nat.sqrt_le_sqrt h2
      _ = k := Nat.sqrt_eq' k
    omega
  · rename_i hlt
    push_neg at hlt
    constructor
    · have h1 : q ≤ (⌈q⌉.toNat : ℚ) := by
        rw [hts]
        exact Int.le_ceil q
      have h2 : ⌈q⌉.toNat < (Nat.sqrt ⌈q⌉.toNat + 1) ^ 2 :=
        Nat.lt_succ_sqrt' _
      have h3 : (⌈q⌉.toNat : ℚ) < ((Nat.sqrt ⌈q⌉.toNat + 1 : ℕ) : ℚ) ^ 2 := by
        exact_mod_cast h2
      have := lt_of_le_of_lt h1 h3
      push_cast at this ⊢
      linarith
    · intro k hk
      have hkle : k ≤ Nat.sqrt ⌈q⌉.toNat := by omega
      have hkq : (k : ℚ) ≤ ((Nat.sqrt ⌈q⌉.toNat : ℕ) : ℚ) := by
        exact_mod_cast hkle
      calc (k : ℚ) ^ 2 ≤ ((Nat.sqrt ⌈q⌉.toNat : ℕ) : ℚ) ^ 2 :=
            pow_le_pow_left₀ (by positivity) hkq 2
      _ < q := hlt

theorem ceilSqrtNat_eq_ceil_sqrt (q : ℚ) (hq : 0 ≤ q) :
    ceilSqrtNat q = ⌈Real.sqrt (q : ℝ)⌉₊ := by
  obtain ⟨hub, hlb⟩ := ceilSqrtNat_spec q hq
  rcases Nat.eq_zero_or_pos (ceilSqrtNat q) with h0 | hpos
  · rw [h0]
    rw [h0] at hub
    have hq0 : q = 0 := le_antisymm (by simpa using hub) hq
    rw [hq0]
    simp [Real.sqrt_zero]
  · symm
    rw [Nat.ceil_eq_iff (Nat.pos_iff_ne_zero.1 hpos)]
    constructor
    · have hk := hlb (ceilSqrtNat q - 1) (by omega)
      have hkR : ((ceilSqrtNat q - 1 : ℕ) : ℝ) ^ 2 < (q : ℝ) := by
        exact_mod_cast hk
      exact (Real.lt_sqrt (by positivity)).2 hkR
    · have hubR : (q : ℝ) ≤ ((ceilSqrtNat q : ℕ) : ℝ) ^ 2 := by
        exact_mod_cast hub
      calc Real.sqrt (q : ℝ) ≤
            Real.sqrt (((ceilSqrtNat q : ℕ) : ℝ) ^ 2) :=
            Real.sqrt_le_sqrt hubR
      _ = ((ceilSqrtNat q : ℕ) : ℝ) := Real.sqrt_sq (by positivity)

theorem length_flatMap_range_map {α : Type} :
    ∀ (n m : ℕ) (f : ℕ → ℕ → α),
      ((List.range n).flatMap fun i => (List.range m).map (f i)).length =
        n * m
  | 0, m, f => by simp
  | n + 1, m, f => by
    rw [List.range_succ, List.flatMap_append, List.length_append,
      length_flatMap_range_map n m f]
    simp [Nat.succ_mul]

theorem interval_cover (a x step : ℚ) (n : ℕ) (hn : 1 ≤ n)
    (hstep : 0 ≤ step) (h1 : a ≤ x) (h2 : x ≤ a + n * step) :
    ∃ i : ℕ, i < n ∧ a + i * step ≤ x ∧ x ≤ a + (i + 1) * step := by
  rcases eq_or_lt_of_le hstep with hs0 | hs0
  · refine ⟨0, by omega, ?_, ?_⟩
    · rw [← hs0]
      simpa using h1
    · rw [← hs0] at h2 ⊢
      simpa using (by simpa using h2 : x ≤ a)
  · have hstep_ne : step ≠ 0 := ne_of_gt hs0
    set t : ℚ := (x - a) / step with ht_def
    have ht0 : 0 ≤ t := div_nonneg (by linarith) hs0.le
    have htm : t * step = x - a := div_mul_cancel₀ _ hstep_ne
    have hfl0 : (0 : ℤ) ≤ ⌊t⌋ := Int.floor_nonneg.2 ht0
    have hts : (((⌊t⌋).toNat : ℕ) : ℚ) = ((⌊t⌋ : ℤ) : ℚ) := by
      exact_mod_cast Int.toNat_of_nonneg hfl0
    set k : ℕ := (⌊t⌋).toNat with hk_def
    have hkt : (k : ℚ) ≤ t := by
      rw [hk_def, hts]
      exact Int.floor_le t
    have hkt2 : t < (k : ℚ) + 1 := by
      rw [hk_def, hts]
      exact Int.lt_floor_add_one t
    by_cases hkd : k ≤ n - 1
    · refine ⟨k, by omega, ?_, ?_⟩
      · have hkk : (k : ℚ) * step ≤ t * step :=
          mul_le_mul_of_nonneg_right hkt hs0.le
        rw [htm] at hkk
        linarith
      · have hkk : t * step < ((k : ℚ) + 1) * step :=
          mul_lt_mul_of_pos_right hkt2 hs0
        rw [htm] at hkk
        nlinarith
    · push_neg at hkd
      refine ⟨n - 1, by omega, ?_, ?_⟩
      · have hnk : ((n - 1 : ℕ) : ℚ) ≤ t := by
          calc ((n - 1 : ℕ) : ℚ) ≤ (k : ℚ) := by exact_mod_cast hkd.le
          _ ≤ t := hkt
        have hkk : ((n - 1 : ℕ) : ℚ) * step ≤ t * step :=
          mul_le_mul_of_nonneg_right hnk hs0.le
        rw [htm] at hkk
        linarith
      · have hcast : ((n - 1 : ℕ) : ℚ) + 1 = (n : ℚ) := by
          push_cast [Nat.cast_sub hn]
          ring
        rw [hcast]
        exact h2

/-- C4: `split_large_bbox` returns the input unchanged when the area is at
most `max_area_km2`; otherwise it returns `divisions²` sub-boxes, with
`divisions = ceil(sqrt(area/max))`, forming a `divisions × divisions`
regular grid contained in the original bbox and covering its whole extent
(so the union's extent equals the original).  The haversine-derived chunk
area is the `area` argument. -/
theorem split_large_bbox_spec :
    ∀ (bbox : BBox) (area maxA : ℚ),
      0 < maxA → 0 ≤ area →
      bbox.1 ≤ bbox.2.2.1 → bbox.2.1 ≤ bbox.2.2.2 →
      (area ≤ maxA → split_large_bbox bbox area maxA = [bbox]) ∧
      (maxA < area →
        ceilSqrtNat (area / maxA) = ⌈Real.sqrt ((area : ℝ) / (maxA : ℝ))⌉₊ ∧
        (split_large_bbox bbox area maxA).length =
          ceilSqrtNat (area / maxA) ^ 2 ∧
        (∀ sb ∈ split_large_bbox bbox area maxA,
          bbox.1 ≤ sb.1 ∧ bbox.2.1 ≤ sb.2.1 ∧
          sb.2.2.1 ≤ bbox.2.2.1 ∧ sb.2.2.2 ≤ bbox.2.2.2) ∧
        (∀ y x : ℚ, bbox.1 ≤ y → y ≤ bbox.2.2.1 → bbox.2.1 ≤ x →
          x ≤ bbox.2.2.2 →
          ∃ sb ∈ split_large_bbox bbox area maxA,
            sb.1 ≤ y ∧ y ≤ sb.2.2.1 ∧ sb.2.1 ≤ x ∧ x ≤ sb.2.2.2)) := by
  intro bbox area maxA hmax harea hsn hwe
  constructor
  · intro hle
    unfold split_large_bbox
    rw [if_pos hle]
  · intro hgt
    have hq0 : 0 ≤ area / maxA := div_nonneg harea hmax.le
    have hq1 : 1 < area / maxA := (one_lt_div hmax).2 hgt
    obtain ⟨hub, hlb⟩ := ceilSqrtNat_spec (area / maxA) hq0
    have hd1 : 1 ≤ ceilSqrtNat (area / maxA) := by
      by_contra hc
      push_neg at hc
      have h00 : ceilSqrtNat (area / maxA) = 0 := by omega
      rw [h00] at hub
      push_cast at hub
      linarith
    set d := ceilSqrtNat (area / maxA) with hd_def
    have hd0 : (0 : ℚ) < (d : ℚ) := by exact_mod_cast hd1
    have hsplit : split_large_bbox bbox area maxA =
        (List.range d).flatMap fun i =>
          (List.range d).map fun j => subBBox bbox d i j := by
      unfold split_large_bbox
      rw [if_neg (not_le.2 hgt)]
    have hlat0 : 0 ≤ (bbox.2.2.1 - bbox.1) / (d : ℚ) :=
      div_nonneg (by linarith) hd0.le
    have hlon0 : 0 ≤ (bbox.2.2.2 - bbox.2.1) / (d : ℚ) :=
      div_nonneg (by linarith) hd0.le
    have hlat_top : bbox.1 + (d : ℚ) * ((bbox.2.2.1 - bbox.1) / (d : ℚ)) =
        bbox.2.2.1 := by
      field_simp
    have hlon_top : bbox.2.1 + (d : ℚ) * ((bbox.2.2.2 - bbox.2.1) / (d : ℚ)) =
        bbox.2.2.2 := by
      field_simp
    refine ⟨(ceilSqrtNat_eq_ceil_sqrt (area / maxA) hq0).trans
      (by push_cast; rfl), ?_, ?_, ?_⟩
    · rw [hsplit, length_flatMap_range_map, sq]
    · intro sb hsb
      rw [hsplit] at hsb
      obtain ⟨i, hi, hsb⟩ := List.mem_flatMap.1 hsb
      obtain ⟨j, hj, rfl⟩ := List.mem_map.1 hsb
      rw [List.mem_range] at hi hj
      have hi1 : ((i : ℚ) + 1) ≤ (d : ℚ) := by exact_mod_cast hi
      have hj1 : ((j : ℚ) + 1) ≤ (d : ℚ) := by exact_mod_cast hj
      have hia := mul_le_mul_of_nonneg_right hi1 hlat0
      have hja := mul_le_mul_of_nonneg_right hj1 hlon0
      have hi0 := mul_nonneg (Nat.cast_nonneg (α := ℚ) i) hlat0
      have hj0 := mul_nonneg (Nat.cast_nonneg (α := ℚ) j) hlon0
      simp only [subBBox]
      push_cast
      refine ⟨by linarith, by linarith, by linarith [hlat_top],
        by linarith [hlon_top]⟩
    · intro y x hy1 hy2 hx1 hx2
      obtain ⟨i, hi, hi1, hi2⟩ := interval_cover bbox.1 y
        ((bbox.2.2.1 - bbox.1) / (d : ℚ)) d hd1 hlat0 hy1
        (by rw [hlat_top]; exact hy2)
      obtain ⟨j, hj, hj1, hj2⟩ := interval_cover bbox.2.1 x
        ((bbox.2.2.2 - bbox.2.1) / (d : ℚ)) d hd1 hlon0 hx1
        (by rw [hlon_top]; exact hx2)
      refine ⟨subBBox bbox d i j, ?_, ?_, ?_, ?_, ?_⟩
      · rw [hsplit]
        exact List.mem_flatMap.2 ⟨i, List.mem_range.2 hi,
          List.mem_map.2 ⟨j, List.mem_range.2 hj, rfl⟩⟩
      · exact hi1
      · simp only [subBBox]
        push_cast
        linarith [hi2]
      · exact hj1
      · simp only [subBBox]
        push_cast
        linarith [hj2]

/-- Witness for C4, end-to-end scenario 4: area 400 km² with max 100 km²
gives divisions = 2 and exactly 4 sub-boxes. -/
theorem split_large_bbox_spec_witness :
    (split_large_bbox (0, 0, 2, 2) 400 100).length = 4 ∧
    ceilSqrtNat (400 / 100) = ⌈Real.sqrt ((400 : ℝ) / (100 : ℝ))⌉₊ := by
  have h := (split_large_bbox_spec (0, 0, 2, 2) 400 100 (by norm_num)
    (by norm_num) (by norm_num) (by norm_num)).2 (by norm_num)
  have hsq : Nat.sqrt 4 = 2 := (Nat.eq_sqrt'.2 (by norm_num)).symm
  have hceil4 : (⌈((400 : ℚ) / 100)⌉).toNat = 4 := by
    rw [show ((400 : ℚ) / 100) = 4 by norm_num]
    rw [show ((⌈(4 : ℚ)⌉) : ℤ) = 4 by
      rw [Int.ceil_eq_iff]
      constructor <;> norm_num]
    rfl
  have hcs : ceilSqrtNat (400 / 100) = 2 := by
    simp only [ceilSqrtNat]
    rw [hceil4, hsq]
    rw [if_pos (by norm_num)]
  refine ⟨by rw [h.2.1, hcs]; norm_num, ?_⟩
  have h1 := h.1
  push_cast at h1 ⊢
  exact h1

theorem cell_index_eq {s : ℚ} (hs : 0 < s) {a : ℚ} {i i' : ℕ} {x : ℚ}
    (h1 : a + i * s < x) (h2 : x < a + i * s + s)
    (h3 : a + i' * s < x) (h4 : x < a + i' * s + s) : i = i' := by
  have c1 : (i : ℚ) * s < ((i' : ℚ) + 1) * s := by nlinarith
  have c2 : (i' : ℚ) * s < ((i : ℚ) + 1) * s := by nlinarith
  have d1 : (i : ℚ) < (i' : ℚ) + 1 := lt_of_mul_lt_mul_right c1 hs.le
  have d2 : (i' : ℚ) < (i : ℚ) + 1 := lt_of_mul_lt_mul_right c2 hs.le
  have e1 : i < i' + 1 := by exact_mod_cast d1
  have e2 : i' < i + 1 := by exact_mod_cast d2
  omega

theorem KM_PER_DEG_pos : (0 : ℚ) < KM_PER_DEG := by norm_num [KM_PER_DEG]

/-- C5: for a valid bbox and positive cell size, `create_analysis_grid`
produces exactly the cells `gridCell west south s i j` for
`i < nx, j < ny` (square cells of side `s = cell_km / 111.32` degrees,
identifier `grid_<i>_<j>` with `i` the west-to-east and `j` the
south-to-north index), whose interiors are pairwise disjoint and whose
union covers the entire bbox, including the final partial cells at the
east and north edges. -/
theorem create_analysis_grid_spec :
    ∀ (south west north east cell_km : ℚ),
      south < north → west < east → 0 < cell_km →
      (∀ i j : ℕ,
        (gridCell west south (cell_km / KM_PER_DEG) i j).grid_id =
          gridId i j ∧
        (gridCell west south (cell_km / KM_PER_DEG) i j).east -
          (gridCell west south (cell_km / KM_PER_DEG) i j).west =
          cell_km / KM_PER_DEG ∧
        (gridCell west south (cell_km / KM_PER_DEG) i j).north -
          (gridCell west south (cell_km / KM_PER_DEG) i j).south =
          cell_km / KM_PER_DEG ∧
        (gridCell west south (cell_km / KM_PER_DEG) i j).west =
          west + i * (cell_km / KM_PER_DEG) ∧
        (gridCell west south (cell_km / KM_PER_DEG) i j).south =
          south + j * (cell_km / KM_PER_DEG)) ∧
      (∀ cell ∈ create_analysis_grid (south, west, north, east) cell_km,
        ∃ i j : ℕ,
          i < arangeLen west (east + cell_km / KM_PER_DEG)
            (cell_km / KM_PER_DEG) - 1 ∧
          j < arangeLen south (north + cell_km / KM_PER_DEG)
            (cell_km / KM_PER_DEG) - 1 ∧
          cell = gridCell west south (cell_km / KM_PER_DEG) i j) ∧
      (∀ i j : ℕ,
        i < arangeLen west (east + cell_km / KM_PER_DEG)
          (cell_km / KM_PER_DEG) - 1 →
        j < arangeLen south (north + cell_km / KM_PER_DEG)
          (cell_km / KM_PER_DEG) - 1 →
        gridCell west south (cell_km / KM_PER_DEG) i j ∈
          create_analysis_grid (south, west, north, east) cell_km) ∧
      (∀ c1 ∈ create_analysis_grid (south, west, north, east) cell_km,
        ∀ c2 ∈ create_analysis_grid (south, west, north, east) cell_km,
        c1 ≠ c2 → ∀ x y : ℚ,
          ¬((c1.west < x ∧ x < c1.east ∧ c1.south < y ∧ y < c1.north) ∧
            (c2.west < x ∧ x < c2.east ∧ c2.south < y ∧ y < c2.north))) ∧
      (∀ x y : ℚ, west ≤ x → x ≤ east → south ≤ y → y ≤ north →
        ∃ c ∈ create_analysis_grid (south, west, north, east) cell_km,
          c.west ≤ x ∧ x ≤ c.east ∧ c.south ≤ y ∧ y ≤ c.north) := by
  intro south west north east cell_km hsn hwe hck
  set s : ℚ := cell_km / KM_PER_DEG with hs_def
  have hs : 0 < s := div_pos hck KM_PER_DEG_pos
  have hgrid : create_analysis_grid (south, west, north, east) cell_km =
      (List.range (arangeLen west (east + s) s - 1)).flatMap fun i =>
        (List.range (arangeLen south (north + s) s - 1)).map fun j =>
          gridCell west south s i j := by
    simp only [create_analysis_grid]
  have harange : ∀ a b : ℚ, a < b →
      (arangeLen a (b + s) s - 1 : ℕ) = (⌈(b - a) / s⌉).toNat ∧
      1 ≤ (⌈(b - a) / s⌉).toNat ∧
      (b - a) ≤ ((⌈(b - a) / s⌉).toNat : ℚ) * s := by
    intro a b hab
    have hf : 0 < (b - a) / s := div_pos (by linarith) hs
    have hceil1 : 1 ≤ ⌈(b - a) / s⌉ := Int.ceil_pos.2 hf
    have hstep : ((b + s) - a) / s = (b - a) / s + 1 := by
      field_simp
      ring
    have hcl : ⌈(b - a) / s + 1⌉ = ⌈(b - a) / s⌉ + 1 := Int.ceil_add_one _
    refine ⟨?_, by omega, ?_⟩
    · unfold arangeLen
      rw [hstep, hcl]
      omega
    · have h1 : (b - a) / s ≤ ((⌈(b - a) / s⌉ : ℤ) : ℚ) := Int.le_ceil _
      have h2 : (((⌈(b - a) / s⌉).toNat : ℕ) : ℚ) = ((⌈(b - a) / s⌉ : ℤ) : ℚ) := by
        exact_mod_cast Int.toNat_of_nonneg (by omega)
      have h3 : (b - a) / s * s = b - a := div_mul_cancel₀ _ (ne_of_gt hs)
      have h4 : (b - a) / s * s ≤ (((⌈(b - a) / s⌉).toNat : ℕ) : ℚ) * s := by
        rw [h2]
        exact mul_le_mul_of_nonneg_right h1 hs.le
      linarith [h4, h3.symm.le]
  obtain ⟨hnxe, hnx1, hnxc⟩ := harange west east hwe
  obtain ⟨hnye, hny1, hnyc⟩ := harange south north hsn
  refine ⟨?_, ?_, ?_, ?_, ?_⟩
  · intro i j
    exact ⟨rfl, by simp [gridCell], by simp [gridCell], rfl, rfl⟩
  · intro cell hcell
    rw [hgrid] at hcell
    obtain ⟨i, hi, hcell⟩ := List.mem_flatMap.1 hcell
    obtain ⟨j, hj, rfl⟩ := List.mem_map.1 hcell
    exact ⟨i, j, List.mem_range.1 hi, List.mem_range.1 hj, rfl⟩
  · intro i j hi hj
    rw [hgrid]
    exact List.mem_flatMap.2 ⟨i, List.mem_range.2 hi,
      List.mem_map.2 ⟨j, List.mem_range.2 hj, rfl⟩⟩
  · intro c1 hc1 c2 hc2 hne x y hcon
    rw [hgrid] at hc1 hc2
    obtain ⟨i1, hi1, hc1⟩ := List.mem_flatMap.1 hc1
    obtain ⟨j1, hj1, rfl⟩ := List.mem_map.1 hc1
    obtain ⟨i2, hi2, hc2⟩ := List.mem_flatMap.1 hc2
    obtain ⟨j2, hj2, rfl⟩ := List.mem_map.1 hc2
    obtain ⟨⟨ha1, ha2, ha3, ha4⟩, hb1, hb2, hb3, hb4⟩ := hcon
    simp only [gridCell] at ha1 ha2 ha3 ha4 hb1 hb2 hb3 hb4
    have hii : i1 = i2 := cell_index_eq hs ha1 ha2 hb1 hb2
    have hjj : j1 = j2 := cell_index_eq hs ha3 ha4 hb3 hb4
    exact hne (by rw [hii, hjj])
  · intro x y hx1 hx2 hy1 hy2
    obtain ⟨i, hi, hix1, hix2⟩ := interval_cover west x s
      ((⌈(east - west) / s⌉).toNat) hnx1 hs.le hx1 (by linarith)
    obtain ⟨j, hj, hjy1, hjy2⟩ := interval_cover south y s
      ((⌈(north - south) / s⌉).toNat) hny1 hs.le hy1 (by linarith)
    refine ⟨gridCell west south s i j, ?_, ?_, ?_, ?_, ?_⟩
    · rw [hgrid]
      exact List.mem_flatMap.2 ⟨i, List.mem_range.2 (by omega),
        List.mem_map.2 ⟨j, List.mem_range.2 (by omega), rfl⟩⟩
    · exact hix1
    · simp only [gridCell]
      linarith [hix2]
    · exact hjy1
    · simp only [gridCell]
      linarith [hjy2]

/-- Witness for C5: on the concrete 2×2 grid, the cells `grid_0_0` and
`grid_1_0` are distinct and their interiors cannot share the point
`(1/1000, 1/1000)`. -/
theorem create_analysis_grid_spec_witness :
    ¬(((gridCell 0 0 (1 / KM_PER_DEG) 0 0).west < 1/1000 ∧
        1/1000 < (gridCell 0 0 (1 / KM_PER_DEG) 0 0).east ∧
        (gridCell 0 0 (1 / KM_PER_DEG) 0 0).south < 1/1000 ∧
        1/1000 < (gridCell 0 0 (1 / KM_PER_DEG) 0 0).north) ∧
      ((gridCell 0 0 (1 / KM_PER_DEG) 1 0).west < 1/1000 ∧
        1/1000 < (gridCell 0 0 (1 / KM_PER_DEG) 1 0).east ∧
        (gridCell 0 0 (1 / KM_PER_DEG) 1 0).south < 1/1000 ∧
        1/1000 < (gridCell 0 0 (1 / KM_PER_DEG) 1 0).north)) := by
  have h := create_analysis_grid_spec 0 0 (1/100) (1/100) 1 (by norm_num)
    (by norm_num) (by norm_num)
  have hm1 : gridCell 0 0 (1 / KM_PER_DEG) 0 0 ∈
      create_analysis_grid (0, 0, 1/100, 1/100) 1 :=
    h.2.2.1 0 0 (by rw [arangeLenW]; norm_num) (by rw [arangeLenW]; norm_num)
  have hm2 : gridCell 0 0 (1 / KM_PER_DEG) 1 0 ∈
      create_analysis_grid (0, 0, 1/100, 1/100) 1 :=
    h.2.2.1 1 0 (by rw [arangeLenW]; norm_num) (by rw [arangeLenW]; norm_num)
  have hne : gridCell 0 0 (1 / KM_PER_DEG) 0 0 ≠
      gridCell 0 0 (1 / KM_PER_DEG) 1 0 := by
    intro heq
    have hw := congrArg GridCell.west heq
    simp only [gridCell] at hw
    norm_num [KM_PER_DEG] at hw
  exact h.2.2.2.1 _ hm1 _ hm2 hne (1/1000) (1/1000)

theorem dupInner_subset (near : ℕ → ℕ → Bool) (cnt : ℕ → ℕ) (i : ℕ) :
    ∀ (js dups : List ℕ) (x : ℕ), x ∈ dups →
      x ∈ dupInner near cnt i js dups
  | [], _, _, hx => hx
  | j :: js, dups, x, hx => by
    rw [dupInner]
    split
    · exact dupInner_subset near cnt i js dups x hx
    · split
      · split
        · exact dupInner_subset near cnt i js (j :: dups) x
            (List.mem_cons_of_mem _ hx)
        · exact List.mem_cons_of_mem _ hx
      · exact dupInner_subset near cnt i js dups x hx

theorem dupInner_no_near (near : ℕ → ℕ → Bool) (cnt : ℕ → ℕ) (i : ℕ) :
    ∀ (js dups F : List ℕ),
      (∀ x, x ∈ dupInner near cnt i js dups → x ∈ F) → i ∉ F →
      ∀ j ∈ js, j ∉ F → near i j = false
  | [], _, _, _, _, j, hj, _ => absurd hj (List.not_mem_nil j)
  | j0 :: js, dups, F, hsub, hiF, j, hj, hjF => by
    rw [dupInner] at hsub
    rcases List.mem_cons.1 hj with rfl | hjs
    · by_cases h1 : j ∈ dups
      · rw [if_pos h1] at hsub
        exact absurd (hsub j (dupInner_subset near cnt i js dups j h1)) hjF
      · rw [if_neg h1] at hsub
        by_cases h2 : near i j = true
        · rw [if_pos h2] at hsub
          by_cases h3 : cnt j ≤ cnt i
          · rw [if_pos h3] at hsub
            exact absurd (hsub j (dupInner_subset near cnt i js (j :: dups) j
              (List.mem_cons_self _ _))) hjF
          · rw [if_neg h3] at hsub
            exact absurd (hsub i (List.mem_cons_self _ _)) hiF
        · exact Bool.not_eq_true _ ▸ h2
    · by_cases h1 : j0 ∈ dups
      · rw [if_pos h1] at hsub
        exact dupInner_no_near near cnt i js dups F hsub hiF j hjs hjF
      · rw [if_neg h1] at hsub
        by_cases h2 : near i j0 = true
        · rw [if_pos h2] at hsub
          by_cases h3 : cnt j0 ≤ cnt i
          · rw [if_pos h3] at hsub
            exact dupInner_no_near near cnt i js (j0 :: dups) F hsub hiF
              j hjs hjF
          · rw [if_neg h3] at hsub
            exact absurd (hsub i (List.mem_cons_self _ _)) hiF
        · rw [if_neg h2] at hsub
          exact dupInner_no_near near cnt i js dups F hsub hiF j hjs hjF

theorem dupOuter_subset (near : ℕ → ℕ → Bool) (cnt : ℕ → ℕ) (n : ℕ) :
    ∀ (is dups : List ℕ) (x : ℕ), x ∈ dups →
      x ∈ dupOuter near cnt n is dups
  | [], _, _, hx => hx
  | i :: is, dups, x, hx => by
    rw [dupOuter]
    split
    · exact dupOuter_subset near cnt n is dups x hx
    · exact dupOuter_subset near cnt n is _ x
        (dupInner_subset near cnt i _ dups x hx)

theorem dupOuter_no_near (near : ℕ → ℕ → Bool) (cnt : ℕ → ℕ) (n : ℕ) :
    ∀ (is dups : List ℕ), ∀ i ∈ is,
      i ∉ dupOuter near cnt n is dups →
      ∀ j ∈ List.range' (i + 1) (n - (i + 1)),
        j ∉ dupOuter near cnt n is dups → near i j = false
  | [], _, i, hi, _, _, _, _ => absurd hi (List.not_mem_nil i)
  | i0 :: is, dups, i, hi, hiR, j, hj, hjR => by
    rw [dupOuter] at hiR hjR
    rcases List.mem_cons.1 hi with rfl | his
    · by_cases h1 : i ∈ dups
      · rw [if_pos h1] at hiR
        exact absurd (dupOuter_subset near cnt n is dups i h1) hiR
      · rw [if_neg h1] at hiR hjR
        exact dupInner_no_near near cnt i _ _ _
          (fun x hx => dupOuter_subset near cnt n is _ x hx) hiR j hj hjR
    · by_cases h1 : i0 ∈ dups
      · rw [if_pos h1] at hiR hjR
        exact dupOuter_no_near near cnt n is dups i his hiR j hj hjR
      · rw [if_neg h1] at hiR hjR
        exact dupOuter_no_near near cnt n is _ i his hiR j hj hjR

theorem dupInner_no_add (near : ℕ → ℕ → Bool) (cnt : ℕ → ℕ) (i : ℕ) :
    ∀ (js : List ℕ), (∀ j ∈ js, near i j = false) →
      ∀ dups, dupInner near cnt i js dups = dups
  | [], _, _ => rfl
  | j :: js, h, dups => by
    rw [dupInner]
    have hrec := dupInner_no_add near cnt i js
      (fun x hx => h x (List.mem_cons_of_mem _ hx))
    split
    · exact hrec dups
    · rw [h j (List.mem_cons_self _ _)]
      simp only [Bool.false_eq_true, if_false]
      exact hrec dups

theorem dupOuter_all_far (near : ℕ → ℕ → Bool) (cnt : ℕ → ℕ) (n : ℕ) :
    ∀ is : List ℕ,
      (∀ i ∈ is, ∀ j ∈ List.range' (i + 1) (n - (i + 1)),
        near i j = false) →
      dupOuter near cnt n is [] = []
  | [], _ => rfl
  | i :: is, h => by
    rw [dupOuter, if_neg (List.not_mem_nil i)]
    rw [dupInner_no_add near cnt i _ (h i (List.mem_cons_self _ _)) []]
    exact dupOuter_all_far near cnt n is
      fun x hx => h x (List.mem_cons_of_mem _ hx)

theorem filterMap_get?_range {α : Type} :
    ∀ l : List α, (List.range l.length).filterMap (fun i => l.get? i) = l
  | [] => rfl
  | a :: xs => by
    rw [List.length_cons, List.range_succ_eq_map, List.filterMap_cons]
    simp only [List.get?_cons_zero]
    rw [List.filterMap_map]
    have hcomp : ((fun i => (a :: xs).get? i) ∘ (· + 1)) =
        fun i => xs.get? i := funext fun i => rfl
    rw [hcomp, filterMap_get?_range xs]

theorem filterMap_ite_mem_nil {α : Type} (f : ℕ → Option α) :
    ∀ idx : List ℕ,
      idx.filterMap (fun i => if i ∈ ([] : List ℕ) then none else f i) =
        idx.filterMap f
  | [] => rfl
  | i :: idx => by
    rw [List.filterMap_cons, List.filterMap_cons,
      if_neg (List.not_mem_nil i), filterMap_ite_mem_nil f idx]

theorem filterMap_ite_eq_filter {α : Type} (f : ℕ → Option α)
    (dups : List ℕ) :
    ∀ idx : List ℕ,
      idx.filterMap (fun i => if i ∈ dups then none else f i) =
        (idx.filter fun i => i ∉ dups).filterMap f
  | [] => rfl
  | i :: idx => by
    by_cases h : i ∈ dups
    · rw [List.filterMap_cons, if_pos h, List.filter_cons,
        if_neg (by simpa using h), filterMap_ite_eq_filter f dups idx]
    · rw [List.filterMap_cons, if_neg h, List.filter_cons,
        if_pos (by simpa using h), List.filterMap_cons,
        filterMap_ite_eq_filter f dups idx]

theorem filterMap_get?_eq_map_getD {α : Type} (l : List α) (d : α) :
    ∀ idx : List ℕ, (∀ i ∈ idx, i < l.length) →
      idx.filterMap (fun i => l.get? i) =
        idx.map fun i => l.getD i d
  | [], _ => rfl
  | i :: idx, h => by
    rw [List.filterMap_cons, List.map_cons]
    have hi : i < l.length := h i (List.mem_cons_self _ _)
    have hget : l.get? i = some (l.getD i d) := by
      rw [List.getD_eq_getElem?_getD, List.get?_eq_getElem?,
        List.getElem?_eq_getElem hi]
      rfl
    rw [hget]
    exact congrArg _ (filterMap_get?_eq_map_getD l d idx
      fun x hx => h x (List.mem_cons_of_mem _ hx))

/-- The rows kept by one `remove_duplicates` pass have pairwise
non-intersecting buffers: when a kept row `a` was the outer index, its
inner scan could not have been cut short (a break marks the outer row),
so every later kept row was tested against it and found non-overlapping. -/
theorem remove_duplicates_kept_pairwise (gdf : List PFeature) (tol : ℚ)
    (hlen : ¬gdf.length ≤ 1) :
    (remove_duplicates gdf tol).Pairwise
      (fun A B => bufferedIntersects A B tol = false) := by
  simp only [remove_duplicates]
  rw [if_neg hlen]
  rw [filterMap_ite_eq_filter, filterMap_get?_eq_map_getD _ ⟨0, 0, []⟩ _
    (fun i hi => List.mem_range.1 (List.mem_filter.1 hi).1)]
  rw [List.pairwise_map]
  have hpw : (List.range gdf.length).Pairwise (· < ·) :=
    List.pairwise_lt_range _
  have hpwf := hpw.filter
    (fun i => decide (i ∉ dupOuter
      (fun i j => bufferedIntersects (gdf.getD i ⟨0, 0, []⟩)
        (gdf.getD j ⟨0, 0, []⟩) tol)
      (fun i => rowCount (gdf.getD i ⟨0, 0, []⟩))
      gdf.length (List.range gdf.length) []))
  refine hpwf.imp_of_mem ?_
  intro a b ha hb hab
  have hamem := List.mem_filter.1 ha
  have hbmem := List.mem_filter.1 hb
  have han : a < gdf.length := List.mem_range.1 hamem.1
  have hbn : b < gdf.length := List.mem_range.1 hbmem.1
  have hand := hamem.2
  have hbnd := hbmem.2
  rw [decide_eq_true_iff] at hand hbnd
  exact dupOuter_no_near _ _ gdf.length (List.range gdf.length) []
    a (List.mem_range.2 han) hand b
    (by
      rw [List.mem_range'_1]
      omega)
    hbnd

/-- C7: deduplication is idempotent — applying `remove_duplicates` to its
own output (with the same tolerance) removes nothing further. -/
theorem remove_duplicates_idempotent (gdf : List PFeature) (tol : ℚ) :
    remove_duplicates (remove_duplicates gdf tol) tol =
      remove_duplicates gdf tol := by
  by_cases hlen : gdf.length ≤ 1
  · have h1 : remove_duplicates gdf tol = gdf := by
      rw [remove_duplicates, if_pos hlen]
    rw [h1]
    exact h1
  · set K := remove_duplicates gdf tol with hK_def
    by_cases hlen2 : K.length ≤ 1
    · rw [remove_duplicates, if_pos hlen2]
    · have hpw := remove_duplicates_kept_pairwise gdf tol hlen
      rw [← hK_def] at hpw
      have hget := List.pairwise_iff_getElem.1 hpw
      have hfar : ∀ i ∈ List.range K.length,
          ∀ j ∈ List.range' (i + 1) (K.length - (i + 1)),
          bufferedIntersects (K.getD i ⟨0, 0, []⟩) (K.getD j ⟨0, 0, []⟩)
            tol = false := by
        intro i hi j hj
        have hi' : i < K.length := List.mem_range.1 hi
        have hj' : i + 1 ≤ j ∧ j < K.length := by
          rw [List.mem_range'_1] at hj
          omega
        have h1 : K.getD i ⟨0, 0, []⟩ = K[i] := by
          rw [List.getD_eq_getElem?_getD, List.getElem?_eq_getElem hi']
          rfl
        have h2 : K.getD j ⟨0, 0, []⟩ = K[j] := by
          rw [List.getD_eq_getElem?_getD, List.getElem?_eq_getElem hj'.2]
          rfl
        rw [h1, h2]
        exact hget i j hi' hj'.2 (by omega)
      simp only [remove_duplicates]
      rw [if_neg hlen2]
      rw [dupOuter_all_far _ _ K.length (List.range K.length) hfar]
      rw [filterMap_ite_mem_nil, filterMap_get?_range]

end OSMD
